import Mathlib

/-!
Shallow embedding of the game-boy emulator core (cpu.rs, bus.rs, opcodes.rs,
ppu.rs, apu.rs, timer.rs, joypad.rs, cartridge.rs) and proofs about the
specification claims.

Modelling conventions, used uniformly below:
* `u8` / `u16` / `usize` values are `Nat`; arithmetic that can wrap in the
  source is taken modulo `2^8` / `2^16` explicitly (release-mode wrapping
  semantics for the plain `+`/`-` operators, and `wrapping_*` as written).
* Fixed-size byte arrays (`[u8; N]`, `Vec<u8>`) are total maps `Nat → Nat`;
  in-bounds indexing becomes function application.  Functions that `assert!`
  a bound keep the bound as an explicit guard returning `Option`.
* `panic!`, `assert!` failures and `todo!` are modelled as `Option.none`.
* The floating point audio samples (`f32`) are outside the embedding; the
  state-transition part of `Apu::tick` is kept, the sample it returns is
  dropped (the sample never flows back into emulator state, it is only
  pushed into the host audio buffer).
* The `Bus` fields `frame` (host frame buffer) and `audio_buffer` (host
  audio queue) are host-output sinks that no emulator state reads back;
  they are omitted, and with them the call
  `render::render_scanline(&mut self.ppu, &mut self.frame)` (which only
  writes `frame`; note render.rs of this snapshot references `Ppu` fields
  that do not exist in ppu.rs).  The `Ppu` mutation `oam_scan` performed in
  the same `Bus::tick` branch is kept.
* The `Box<dyn Mapper>` cartridge is instantiated at the flat mapper
  (`Mbc0` of cartridge.rs): ROM reads are a byte map, ROM writes are
  ignored, cartridge-RAM reads/writes use the absolute address exactly as
  `Mbc0::ram_read` / `Mbc0::ram_write` do.
* `CPU_PREFIXED_OP_CODES` is referenced by cpu.rs but its definition is not
  among the given sources, and opcode `0xCB` is absent from
  `CPU_OP_CODES`, so the prefixed branch of `step` is unreachable; it is
  modelled as a panic (`Option.none`) and every theorem below constrains
  `prefixed_mode = false`.
-/

namespace GB

/-- bitflags `contains`: every bit of the mask is set in the byte. -/
def bcontains (f m : Nat) : Bool := f &&& m == m

/-- bitflags `set`: insert the mask when the flag is true, remove it when
false (bytes stay below 256 throughout the model). -/
def bset (f m : Nat) (b : Bool) : Nat :=
  if b then f ||| m else f &&& (m ^^^ 0xff)

/-- bitflags `insert`. -/
def binsert (f m : Nat) : Nat := f ||| m

/-- bitflags `remove`. -/
def bremove (f m : Nat) : Nat := f &&& (m ^^^ 0xff)

/-- bitflags `toggle`. -/
def btoggle (f m : Nat) : Nat := f ^^^ m

/-! ## timer.rs -/

structure Timer where
  divider_counter : Nat
  divider_cycle : Nat
  timer_counter : Nat
  timer_cycle : Nat
  timer_modulo : Nat
  tac_enable : Bool
  tac_clock : Nat
deriving Repr

namespace Timer

/-- const TIMER_CYCLES: [usize; 4] = [256, 4, 16, 64]. -/
def TIMER_CYCLES : List Nat := [256, 4, 16, 64]

def new : Timer :=
  { divider_counter := 0, divider_cycle := 0, timer_counter := 0,
    timer_cycle := 0, timer_modulo := 0, tac_enable := false, tac_clock := 0 }

/-- FF07 TAC write. -/
def tac_write (t : Timer) (val : Nat) : Timer :=
  { t with tac_enable := val &&& 0x04 > 0, tac_clock := val &&& 0x03 }

/-- FF07 TAC read. -/
def tac_read (t : Timer) : Nat :=
  (cond t.tac_enable 1 0) <<< 2 + t.tac_clock

/-- Timer::divider_tick.  `divider_cycle` is a `u8`, so `+=` wraps mod 256;
the drain threshold is `TIMER_CYCLES[3] = 64`. -/
def divider_tick (t : Timer) (cycles : Nat) : Timer :=
  let t := { t with divider_cycle := (t.divider_cycle + cycles) % 256 }
  if t.divider_cycle ≥ TIMER_CYCLES.getD 3 0 then
    { t with divider_counter := (t.divider_counter + 1) % 256,
             divider_cycle := t.divider_cycle - TIMER_CYCLES.getD 3 0 }
  else t

/-- the `while` loop of Timer::timer_tick, by fuel.  Each executed iteration
drains one period (at least 4 cycles for the four valid TAC clocks), so
fuel `timer_cycle + 1` always suffices for states reachable through
`tac_write`. -/
def timer_tick_loop : Nat → Timer → Timer × Bool
  | 0, t => (t, false)
  | fuel + 1, t =>
    if t.tac_enable ∧ t.timer_cycle ≥ TIMER_CYCLES.getD t.tac_clock 0 then
      let val := (t.timer_counter + 1) % 256
      let carry := t.timer_counter + 1 ≥ 256
      let t := { t with timer_cycle := t.timer_cycle - TIMER_CYCLES.getD t.tac_clock 0 }
      if carry then ({ t with timer_counter := t.timer_modulo }, true)
      else timer_tick_loop fuel { t with timer_counter := val }
    else (t, false)

/-- Timer::timer_tick. -/
def timer_tick (t : Timer) (cycles : Nat) : Timer × Bool :=
  let t := if t.tac_enable then { t with timer_cycle := t.timer_cycle + cycles } else t
  timer_tick_loop (t.timer_cycle + 1) t

/-- Timer::tick: divider first, then the TIMA counter; the boolean requests
the timer interrupt. -/
def tick (t : Timer) (cycles : Nat) : Timer × Bool :=
  timer_tick (divider_tick t cycles) cycles

end Timer

/-! ## joypad.rs -/

structure Joypad where
  select_mode : Bool
  dpad_mode : Bool
  select : Nat
  dpad : Nat
  interrupt : Bool
deriving Repr

namespace Joypad

def new : Joypad :=
  { select_mode := false, dpad_mode := false, select := 0x0f, dpad := 0x0f,
    interrupt := false }

def read (j : Joypad) : Nat :=
  let lo_nib :=
    if !j.select_mode then j.select &&& 0x0f
    else if !j.dpad_mode then j.dpad &&& 0x0f
    else 0x0f
  ((cond j.select_mode 1 0) <<< 5) + ((cond j.dpad_mode 1 0) <<< 4) + lo_nib

def write (j : Joypad) (val : Nat) : Joypad :=
  { j with select_mode := val &&& 0x20 > 0,
           dpad_mode := val &&& 0x10 > 0 }

end Joypad

/-! ## apu.rs -/

structure Envelope where
  init_vol : Nat
  volume : Nat
  mode : Bool
  period : Nat
  counter : Nat
deriving Repr

namespace Envelope

def new : Envelope :=
  { init_vol := 0, volume := 0, mode := true, period := 0, counter := 0 }

def set_vol (e : Envelope) (vol : Nat) : Envelope :=
  { e with init_vol := vol, volume := vol }

def read (e : Envelope) : Nat :=
  (e.init_vol <<< 4) + ((cond e.mode 1 0) <<< 3) + e.period

def tick (e : Envelope) : Envelope :=
  if e.period = 0 then e
  else
    let e := if e.counter ≠ 0 then { e with counter := e.counter - 1 } else e
    if e.counter = 0 then
      let e := { e with counter := e.period }
      if e.volume < 0x0f ∧ e.mode then { e with volume := e.volume + 1 }
      else if e.volume > 0 ∧ !e.mode then { e with volume := e.volume - 1 }
      else e
    else e

end Envelope

structure LengthCounter where
  enabled : Bool
  counter : Nat
  reset_val : Nat
  next_frame_no_clock : Bool
deriving Repr

namespace LengthCounter

def new : LengthCounter :=
  { enabled := false, counter := 0, reset_val := 0, next_frame_no_clock := false }

def set (lc : LengthCounter) (val : Nat) : LengthCounter :=
  { lc with counter := val, reset_val := val }

/-- LengthCounter::enable returns the "extra length clock" condition along
with the updated counter. -/
def enable (lc : LengthCounter) (enabled : Bool) : LengthCounter × Bool :=
  ({ lc with enabled := enabled },
   !lc.enabled && enabled && lc.next_frame_no_clock)

def tick (lc : LengthCounter) : LengthCounter :=
  if lc.enabled ∧ lc.counter > 0 then { lc with counter := lc.counter - 1 } else lc

end LengthCounter

structure Sweep where
  enabled : Bool
  period : Nat
  shadow_freq : Nat
  direction : Bool
  shift : Nat
  counter : Nat
  neg_calc_made : Bool
deriving Repr

namespace Sweep

def new : Sweep :=
  { enabled := false, period := 0, shadow_freq := 0, direction := true,
    shift := 0, counter := 0, neg_calc_made := false }

def reload_counter (s : Sweep) : Sweep :=
  if s.period = 0 then { s with counter := 8 } else { s with counter := s.period }

end Sweep

structure SquareChannel where
  power_on : Bool
  enabled : Bool
  dac_on : Bool
  sweep : Sweep
  sweep_enabled : Bool
  wave_pattern : Nat
  duty_step : Nat
  period : Nat
  period_divider : Nat
  envelope : Envelope
  length_counter : LengthCounter
deriving Repr

namespace SquareChannel

def new (sweep_enabled : Bool) : SquareChannel :=
  { power_on := false, enabled := false, dac_on := false, sweep := Sweep.new,
    sweep_enabled := sweep_enabled, wave_pattern := 0, duty_step := 0,
    period := 0, period_divider := 0, envelope := Envelope.new,
    length_counter := LengthCounter.new }

/-- SquareChannel::sweep_cal, returning the updated channel and the computed
new period (`wrapping_add` / `wrapping_sub` on a `u16`). -/
def sweep_cal (c : SquareChannel) : SquareChannel × Nat :=
  let offset := c.sweep.shadow_freq >>> c.sweep.shift
  let (c, new_period) :=
    if c.sweep.direction then (c, (c.sweep.shadow_freq + offset) % 65536)
    else ({ c with sweep := { c.sweep with neg_calc_made := true } },
          (c.sweep.shadow_freq + 65536 - offset) % 65536)
  let c := if new_period > 0x7ff then { c with enabled := false } else c
  (c, new_period)

def sweep_tick (c : SquareChannel) : SquareChannel :=
  let c := if c.sweep.counter > 0 then
    { c with sweep := { c.sweep with counter := c.sweep.counter - 1 } } else c
  if c.sweep.counter = 0 then
    let c := { c with sweep := c.sweep.reload_counter }
    if c.sweep.enabled ∧ c.sweep.period > 0 then
      let (c, new_period) := c.sweep_cal
      if new_period ≤ 0x7ff ∧ c.sweep.shift > 0 then
        let c := { c with period := new_period,
                          sweep := { c.sweep with shadow_freq := new_period } }
        (c.sweep_cal).1
      else c
    else c
  else c

def len_ctr_tick (c : SquareChannel) : SquareChannel :=
  let c := { c with length_counter := c.length_counter.tick }
  if c.length_counter.counter = 0 then { c with enabled := false } else c

def trigger (c : SquareChannel) : SquareChannel :=
  let c := { c with enabled := c.dac_on }
  let c :=
    if c.length_counter.counter = 0 ∧ c.length_counter.next_frame_no_clock
        ∧ c.length_counter.enabled then
      { c with length_counter := { c.length_counter with counter := 63 } }
    else if c.length_counter.counter = 0 then
      { c with length_counter := { c.length_counter with counter := 64 } }
    else c
  let c := { c with period_divider := c.period,
                    envelope := { c.envelope with counter := c.envelope.period,
                                                  volume := c.envelope.init_vol } }
  if c.sweep_enabled then
    let c := { c with sweep := { c.sweep with neg_calc_made := false,
                                              shadow_freq := c.period } }
    let c := { c with sweep := c.sweep.reload_counter }
    let c := { c with sweep := { c.sweep with
                 enabled := c.sweep.period ≠ 0 ∨ c.sweep.shift ≠ 0 } }
    if c.sweep.shift ≠ 0 then (c.sweep_cal).1 else c
  else c

/-- 0xFF10 NR10. -/
def sweep_write (c : SquareChannel) (val : Nat) : SquareChannel :=
  if !c.power_on then c
  else
    let c := { c with sweep := { c.sweep with
                 period := (val &&& 0x70) >>> 4,
                 direction := val &&& 0x08 == 0 } }
    let c :=
      if c.sweep.neg_calc_made ∧ c.sweep.direction then
        { c with sweep := { c.sweep with neg_calc_made := false },
                 enabled := false }
      else c
    { c with sweep := { c.sweep with shift := val &&& 0x07 } }

def sweep_read (c : SquareChannel) : Nat :=
  ((c.sweep.period <<< 4) + ((cond c.sweep.direction 0 1) <<< 3) + c.sweep.shift) ||| 0x80

/-- 0xFF11 NR11. -/
def length_timer_write (c : SquareChannel) (val : Nat) : SquareChannel :=
  let c := if c.power_on then { c with wave_pattern := (val &&& 0xc0) >>> 6 } else c
  { c with length_counter := c.length_counter.set (64 - (val &&& 0x3f)) }

def length_timer_read (c : SquareChannel) : Nat :=
  (c.wave_pattern <<< 6) ||| 0x3f

/-- 0xFF12 NR12. -/
def envelope_write (c : SquareChannel) (val : Nat) : SquareChannel :=
  if !c.power_on then c
  else
    let c := { c with envelope :=
      { c.envelope.set_vol ((val &&& 0xf0) >>> 4) with
          mode := val &&& 0x08 > 0, period := val &&& 0x07 } }
    let c := { c with dac_on := val &&& 0xf8 > 0 }
    if !c.dac_on then { c with enabled := false } else c

def envelope_read (c : SquareChannel) : Nat := c.envelope.read

/-- 0xFF13 NR13. -/
def period_low_write (c : SquareChannel) (val : Nat) : SquareChannel :=
  if !c.power_on then c
  else { c with period := (c.period &&& 0x0700) + val }

def period_low_read (_c : SquareChannel) : Nat := 0xff

/-- 0xFF14 NR14. -/
def control_write (c : SquareChannel) (val : Nat) : SquareChannel :=
  if !c.power_on then c
  else
    let c := { c with period := (c.period &&& 0xff) + ((val &&& 0x07) <<< 8) }
    let (lc, extra) := c.length_counter.enable (val &&& 0x40 > 0)
    let c := { c with length_counter := lc }
    let c := if extra then c.len_ctr_tick else c
    if val &&& 0x80 > 0 then c.trigger else c

def control_read (c : SquareChannel) : Nat :=
  ((cond c.length_counter.enabled 1 0) <<< 6) ||| 0xbf

def tick (c : SquareChannel) : SquareChannel :=
  let c := if c.period_divider ≠ 0 then { c with period_divider := c.period_divider - 1 } else c
  if c.period_divider = 0 then
    { c with period_divider := 0x800 - c.period, duty_step := (c.duty_step + 1) % 8 }
  else c

def power_down (c : SquareChannel) : SquareChannel :=
  let c := c.sweep_write 0
  let c := { c with wave_pattern := 0 }
  let c := c.envelope_write 0
  let c := c.period_low_write 0
  let c := c.control_write 0
  { c with power_on := false }

end SquareChannel

structure WaveChannel where
  power_on : Bool
  enabled : Bool
  dac_on : Bool
  length_counter : LengthCounter
  volume : Nat
  output_level : Nat
  period : Nat
  period_divider : Nat
  wave_ram : Nat → Nat
  sample : Nat
  position : Nat

namespace WaveChannel

def initWaveRam : Nat → Nat := fun i =>
  [0x84, 0x40, 0x43, 0xAA, 0x2D, 0x78, 0x92, 0x3C, 0x60, 0x59, 0x59, 0xB0,
   0x34, 0xB8, 0x2E, 0xDA].getD i 0

def new : WaveChannel :=
  { power_on := false, enabled := false, dac_on := false,
    length_counter := LengthCounter.new, volume := 0, output_level := 0,
    period := 0, period_divider := 0, wave_ram := initWaveRam, sample := 0,
    position := 0 }

def len_ctr_tick (c : WaveChannel) : WaveChannel :=
  let c := { c with length_counter := c.length_counter.tick }
  if c.length_counter.counter = 0 then { c with enabled := false } else c

def trigger (c : WaveChannel) : WaveChannel :=
  let c := { c with enabled := c.dac_on }
  let c :=
    if c.length_counter.counter = 0 ∧ c.length_counter.next_frame_no_clock
        ∧ c.length_counter.enabled then
      { c with length_counter := { c.length_counter with counter := 255 } }
    else if c.length_counter.counter = 0 then
      { c with length_counter := { c.length_counter with counter := 256 } }
    else c
  { c with volume := c.output_level, period_divider := c.period, position := 0 }

/-- 0xFF1A NR30. -/
def dac_enable_write (c : WaveChannel) (val : Nat) : WaveChannel :=
  if !c.power_on then c
  else
    let c := { c with dac_on := val &&& 0x80 > 0 }
    if !c.dac_on then { c with enabled := false } else c

def dac_enable_read (c : WaveChannel) : Nat :=
  ((cond c.dac_on 1 0) <<< 7) ||| 0x7f

/-- 0xFF1B NR31. -/
def length_timer (c : WaveChannel) (val : Nat) : WaveChannel :=
  { c with length_counter := c.length_counter.set (256 - val) }

/-- 0xFF1C NR32. -/
def output_level_write (c : WaveChannel) (val : Nat) : WaveChannel :=
  if !c.power_on then c
  else { c with output_level := (val &&& 0x60) >>> 5 }

def output_level_read (c : WaveChannel) : Nat :=
  (c.output_level <<< 5) ||| 0x9f

/-- 0xFF1D NR33. -/
def period_low_write (c : WaveChannel) (val : Nat) : WaveChannel :=
  if !c.power_on then c
  else { c with period := (c.period &&& 0x700) + val }

def period_low_read (_c : WaveChannel) : Nat := 0xff

/-- 0xFF1E NR34. -/
def control_write (c : WaveChannel) (val : Nat) : WaveChannel :=
  if !c.power_on then c
  else
    let c := { c with period := (c.period &&& 0xff) + ((val &&& 0x07) <<< 8) }
    let (lc, extra) := c.length_counter.enable (val &&& 0x40 > 0)
    let c := { c with length_counter := lc }
    let c := if extra then c.len_ctr_tick else c
    if val &&& 0x80 > 0 then c.trigger else c

def control_read (c : WaveChannel) : Nat :=
  ((cond c.length_counter.enabled 1 0) <<< 6) ||| 0xbf

/-- 0xFF30 - 0xFF3F wave RAM. -/
def wave_ram_write (c : WaveChannel) (addr val : Nat) : WaveChannel :=
  if c.enabled then c
  else { c with wave_ram := fun i => if i = addr - 0xff30 then val else c.wave_ram i }

def wave_ram_read (c : WaveChannel) (addr : Nat) : Nat :=
  if !c.enabled then c.wave_ram (addr - 0xff30) else c.sample

def tick (c : WaveChannel) : WaveChannel :=
  let c := if c.period_divider ≠ 0 then { c with period_divider := c.period_divider - 1 } else c
  if c.period_divider = 0 then
    let c := { c with period_divider := 0x800 - c.period,
                      position := (c.position + 1) % 32 }
    { c with sample := c.wave_ram (c.position / 2) }
  else c

def power_down (c : WaveChannel) : WaveChannel :=
  let c := c.dac_enable_write 0
  let c := c.output_level_write 0
  let c := c.period_low_write 0
  let c := c.control_write 0
  { c with power_on := false }

end WaveChannel

structure NoiseChannel where
  power_on : Bool
  enabled : Bool
  dac_on : Bool
  length_counter : LengthCounter
  envelope : Envelope
  clock_shift : Nat
  lfsr_width : Bool
  lfsr : Nat
  clock_divider : Nat
  timer : Nat
deriving Repr

namespace NoiseChannel

def new : NoiseChannel :=
  { power_on := false, enabled := false, dac_on := false,
    length_counter := LengthCounter.new, envelope := Envelope.new,
    clock_shift := 0, lfsr_width := false, lfsr := 0, clock_divider := 0,
    timer := 0 }

def len_ctr_tick (c : NoiseChannel) : NoiseChannel :=
  let c := { c with length_counter := c.length_counter.tick }
  if c.length_counter.counter = 0 then { c with enabled := false } else c

def trigger (c : NoiseChannel) : NoiseChannel :=
  let c := { c with enabled := c.dac_on }
  let c :=
    if c.length_counter.counter = 0 ∧ c.length_counter.next_frame_no_clock
        ∧ c.length_counter.enabled then
      { c with length_counter := { c.length_counter with counter := 63 } }
    else if c.length_counter.counter = 0 then
      { c with length_counter := { c.length_counter with counter := 64 } }
    else c
  { c with envelope := { c.envelope with counter := c.envelope.period,
                                         volume := c.envelope.init_vol },
           lfsr := 0x7ff }

def tick (c : NoiseChannel) : NoiseChannel :=
  let c := if c.timer ≠ 0 then { c with timer := c.timer - 1 } else c
  if c.timer = 0 then
    let c := { c with timer := c.clock_divider <<< c.clock_shift }
    let xor_result := (c.lfsr &&& 0b1) ^^^ ((c.lfsr &&& 0b10) >>> 1)
    let c := { c with lfsr := (c.lfsr >>> 1) ||| (xor_result <<< 14) }
    if c.lfsr_width then
      { c with lfsr := (c.lfsr &&& 0xffbf) ||| (xor_result <<< 6) }
    else c
  else c

/-- 0xFF20 NR41. -/
def length_timer (c : NoiseChannel) (val : Nat) : NoiseChannel :=
  { c with length_counter := c.length_counter.set (64 - (val &&& 0x3f)) }

/-- 0xFF21 NR42. -/
def envelope_write (c : NoiseChannel) (val : Nat) : NoiseChannel :=
  if !c.power_on then c
  else
    let c := { c with envelope :=
      { c.envelope.set_vol ((val &&& 0xf0) >>> 4) with
          mode := val &&& 0x08 > 0, period := val &&& 0x07 } }
    let c := { c with dac_on := val &&& 0xf8 > 0 }
    if !c.dac_on then { c with enabled := false } else c

def envelope_read (c : NoiseChannel) : Nat := c.envelope.read

/-- 0xFF22 NR43. -/
def randomness_write (c : NoiseChannel) (val : Nat) : NoiseChannel :=
  if !c.power_on then c
  else
    let c := { c with clock_shift := (val &&& 0xf0) >>> 4,
                      lfsr_width := val &&& 0x08 > 0 }
    let div_code := val &&& 0x07
    { c with clock_divider := if div_code = 0 then 8 else 16 * div_code }

def randomness_read (c : NoiseChannel) : Nat :=
  (c.clock_shift <<< 4) + ((cond c.lfsr_width 1 0) <<< 3) + (c.clock_divider / 16)

/-- 0xFF23 NR44. -/
def control_write (c : NoiseChannel) (val : Nat) : NoiseChannel :=
  if !c.power_on then c
  else
    let (lc, extra) := c.length_counter.enable (val &&& 0x40 > 0)
    let c := { c with length_counter := lc }
    let c := if extra then c.len_ctr_tick else c
    if val &&& 0x80 > 0 then c.trigger else c

def control_read (c : NoiseChannel) : Nat :=
  ((cond c.length_counter.enabled 1 0) <<< 6) ||| 0xbf

def power_down (c : NoiseChannel) : NoiseChannel :=
  let c := c.envelope_write 0
  let c := c.randomness_write 0
  let c := c.control_write 0
  { c with power_on := false }

end NoiseChannel

structure Apu where
  square1 : SquareChannel
  square2 : SquareChannel
  wave : WaveChannel
  noise : NoiseChannel
  frame_seq_cycles : Nat
  frame : Nat
  output_cycles : Nat
  audio_on : Bool
  sound_panning : Nat
  volume : Nat

namespace Apu

def new : Apu :=
  { square1 := SquareChannel.new true, square2 := SquareChannel.new false,
    wave := WaveChannel.new, noise := NoiseChannel.new,
    frame_seq_cycles := 0, frame := 0, output_cycles := 0, audio_on := false,
    sound_panning := 0, volume := 0 }

/-- Apu::frame_cycle.  Fires when the incremented counter equals 2047. -/
def frame_cycle (a : Apu) : Apu :=
  let a := { a with frame_seq_cycles := a.frame_seq_cycles + 1 }
  if a.frame_seq_cycles = 2047 then
    let a := { a with frame_seq_cycles := 0,
                      frame := ((a.frame + 1) % 256) % 8 }
    let a :=
      if a.frame = 2 ∨ a.frame = 6 then
        { a with square1 := a.square1.sweep_tick.len_ctr_tick,
                 square2 := a.square2.len_ctr_tick,
                 wave := a.wave.len_ctr_tick,
                 noise := a.noise.len_ctr_tick }
      else if a.frame = 0 ∨ a.frame = 4 then
        { a with square1 := a.square1.len_ctr_tick,
                 square2 := a.square2.len_ctr_tick,
                 wave := a.wave.len_ctr_tick,
                 noise := a.noise.len_ctr_tick }
      else if a.frame = 7 then
        { a with square1 := { a.square1 with envelope := a.square1.envelope.tick },
                 square2 := { a.square2 with envelope := a.square2.envelope.tick },
                 noise := { a.noise with envelope := a.noise.envelope.tick } }
      else a
    let no_clock := a.frame % 2 = 0
    { a with
      square1 := { a.square1 with length_counter :=
        { a.square1.length_counter with next_frame_no_clock := no_clock } },
      square2 := { a.square2 with length_counter :=
        { a.square2.length_counter with next_frame_no_clock := no_clock } },
      wave := { a.wave with length_counter :=
        { a.wave.length_counter with next_frame_no_clock := no_clock } },
      noise := { a.noise with length_counter :=
        { a.noise.length_counter with next_frame_no_clock := no_clock } } }
  else a

/-- state-transition part of Apu::tick (the emitted `f32` sample is a host
output and is dropped, see the header note). -/
def tick (a : Apu) : Apu :=
  let a := { a with square1 := a.square1.tick, square2 := a.square2.tick,
                    wave := a.wave.tick.tick, noise := a.noise.tick }
  let a := a.frame_cycle
  let a := { a with output_cycles := a.output_cycles + 1 }
  if a.output_cycles = 23 then { a with output_cycles := 0 } else a

/-- 0xFF24 NR50. -/
def volume_write (a : Apu) (val : Nat) : Apu :=
  if a.audio_on then { a with volume := val } else a

def volume_read (a : Apu) : Nat := a.volume

/-- 0xFF25 NR51. -/
def sound_panning_write (a : Apu) (val : Nat) : Apu :=
  if a.audio_on then { a with sound_panning := val } else a

def sound_panning_read (a : Apu) : Nat := a.sound_panning

/-- 0xFF26 NR52. -/
def master_control_write (a : Apu) (val : Nat) : Apu :=
  let prev_on := a.audio_on
  let a := { a with audio_on := val &&& 0x80 > 0 }
  let a :=
    if !a.audio_on then
      { a with square1 := a.square1.power_down, square2 := a.square2.power_down,
               wave := a.wave.power_down, noise := a.noise.power_down,
               sound_panning := 0, volume := 0 }
    else a
  if !prev_on ∧ a.audio_on then
    { a with frame := 7,
             square1 := { a.square1 with duty_step := 0, power_on := true },
             square2 := { a.square2 with duty_step := 0, power_on := true },
             wave := { a.wave with position := 0, power_on := true },
             noise := { a.noise with power_on := true } }
  else a

def master_control_read (a : Apu) : Nat :=
  ((cond a.audio_on 1 0) <<< 7 ||| (cond a.noise.enabled 1 0) <<< 3
    ||| (cond a.wave.enabled 1 0) <<< 2 ||| (cond a.square2.enabled 1 0) <<< 1
    ||| (cond a.square1.enabled 1 0)) ||| 0x70

end Apu

/-! ## ppu.rs -/

/-- Control register bit masks (0xFF40). -/
def Control.lcd_enable : Nat := 0x80
def Control.obj_size : Nat := 0x04

/-- Status register bit masks (0xFF41). -/
def Status.lyc_select : Nat := 0x40
def Status.mode_two_select : Nat := 0x20
def Status.mode_one_select : Nat := 0x10
def Status.mode_zero_select : Nat := 0x08
def Status.compare : Nat := 0x04

inductive Mode where
  | MODE2
  | MODE3
  | MODE0
  | MODE1
deriving Repr, DecidableEq

inductive DisplayStatus where
  | DoNothing
  | OAMScan
  | NewScanline
  | NewFrame
deriving Repr, DecidableEq

structure Ppu where
  vram : Nat → Nat
  oam : Nat → Nat
  control : Nat
  status : Nat
  lyc : Nat
  scy : Nat
  scx : Nat
  wy : Nat
  wx : Nat
  bg_palette : Nat
  obp0 : Nat
  obp1 : Nat
  bcps : Nat
  bcpd : Nat
  cycle : Nat
  scanline : Nat
  mode : Mode
  scanline_oams : List Nat

namespace Ppu

def MODE2_END : Nat := 80
def MODE3_START : Nat := 81
def MODE3_END : Nat := 172 + MODE2_END
def MODE0_START : Nat := MODE3_END + 1
def MODE0_END : Nat := 456
def SCANLINE_LENGTH : Nat := 456
def MAX_SCANLINE : Nat := 153
def MODE1_START : Nat := 144

def new : Ppu :=
  { vram := fun _ => 0, oam := fun _ => 0, control := 0, status := 0,
    lyc := 0, scy := 0, scx := 0, wy := 0, wx := 0, bg_palette := 0,
    obp0 := 0, obp1 := 0, bcps := 0, bcpd := 0, mode := Mode.MODE2,
    scanline_oams := [], cycle := 0, scanline := 0 }

def write_to_ctrl (p : Ppu) (val : Nat) : Ppu := { p with control := val }

def read_ctrl (p : Ppu) : Nat := p.control

def write_status (p : Ppu) (val : Nat) : Ppu := { p with status := val }

def modeNum : Mode → Nat
  | Mode.MODE0 => 0
  | Mode.MODE1 => 1
  | Mode.MODE2 => 2
  | Mode.MODE3 => 3

def read_status (p : Ppu) : Nat :=
  let mode := modeNum p.mode
  let mode := if !bcontains p.control Control.lcd_enable then 0 else mode
  p.status + mode

def read_vram (p : Ppu) (addr : Nat) : Option Nat :=
  let mirrored_addr := addr - 0x8000
  if mirrored_addr < 0x2000 then some (p.vram mirrored_addr) else none

def write_vram (p : Ppu) (addr val : Nat) : Option Ppu :=
  let mirrored_addr := addr - 0x8000
  if mirrored_addr < 0x2000 then
    some { p with vram := fun i => if i = mirrored_addr then val else p.vram i }
  else none

def oam_read (p : Ppu) (addr : Nat) : Option Nat :=
  let mirrored_addr := addr - 0xFE00
  if mirrored_addr < 0xA0 then some (p.oam mirrored_addr) else none

def oam_write (p : Ppu) (addr val : Nat) : Option Ppu :=
  let mirrored_addr := addr - 0xFE00
  if mirrored_addr < 0xA0 then
    some { p with oam := fun i => if i = mirrored_addr then val else p.oam i }
  else none

def oam_dma (p : Ppu) (page : Nat → Nat) : Ppu := { p with oam := page }

/-- Ppu::oam_scan: collect up to 10 sprite indices intersecting the current
scanline. -/
def oam_scan (p : Ppu) : Ppu :=
  { p with scanline_oams :=
      (List.range 40).foldl (fun acc i =>
        let y_byte := p.oam (4 * i)
        let in_scanline := p.scanline + 16 ≥ y_byte ∧
          p.scanline + 8 * (cond (bcontains p.control Control.obj_size) 0 1) < y_byte
        if in_scanline ∧ acc.length < 10 then acc ++ [i] else acc) [] }

/-- the `if self.cycle > SCANLINE_LENGTH` block of Ppu::tick: wrap the
cycle counter, advance the scanline, enter VBlank at 144 (requesting the
VBlank interrupt, and the STAT interrupt when its source is enabled), and
latch the LYC compare bit. -/
def tick_scanline (p : Ppu) (result : DisplayStatus × Bool × Bool) :
    Ppu × (DisplayStatus × Bool × Bool) :=
  if p.cycle > SCANLINE_LENGTH then
    let p := { p with cycle := p.cycle % SCANLINE_LENGTH,
                      scanline := (p.scanline + 1) % 256 }
    let p := if p.scanline > MAX_SCANLINE then
        { p with scanline := 0, mode := Mode.MODE2 } else p
    let pr : Ppu × (DisplayStatus × Bool × Bool) :=
      if p.scanline = MODE1_START then
        let p := { p with mode := Mode.MODE1 }
        let result := (result.1, result.2.1, true)
        if bcontains p.status Status.mode_one_select then
          (p, (result.1, true, result.2.2))
        else (p, result)
      else (p, result)
    let p := pr.1
    let result := pr.2
    if p.scanline = p.lyc then
      let p := { p with status := binsert p.status Status.compare }
      if bcontains p.status Status.lyc_select then
        (p, (result.1, true, result.2.2))
      else (p, result)
    else (p, result)
  else (p, result)

/-- the `if self.mode != Mode::MODE1` match of Ppu::tick: pick the mode
from the cycle position within the scanline. -/
def tick_mode_select (p : Ppu) : Ppu :=
  if p.mode ≠ Mode.MODE1 then
    if p.cycle ≤ MODE2_END then { p with mode := Mode.MODE2 }
    else if MODE3_START ≤ p.cycle ∧ p.cycle ≤ MODE3_END then
      { p with mode := Mode.MODE3 }
    else if MODE0_START ≤ p.cycle ∧ p.cycle ≤ MODE0_END then
      { p with mode := Mode.MODE0 }
    else { p with cycle := p.cycle % MODE0_END }
  else p

/-- the `if prior_mode != self.mode` block of Ppu::tick: report the display
action for the newly entered mode, request the gated STAT interrupts, and
store the (LCD-off-masked) mode number into the low STAT bits. -/
def tick_mode_change (prior_mode : Mode) (p : Ppu)
    (result : DisplayStatus × Bool × Bool) :
    Ppu × (DisplayStatus × Bool × Bool) :=
  if prior_mode ≠ p.mode then
    let result :=
      if p.mode = Mode.MODE0 then
        let result := (DisplayStatus.DoNothing, result.2.1, result.2.2)
        if bcontains p.status Status.mode_zero_select then
          (result.1, true, result.2.2)
        else result
      else result
    let result :=
      if p.mode = Mode.MODE1 then
        let result := (DisplayStatus.NewFrame, result.2.1, result.2.2)
        if bcontains p.status Status.mode_one_select then
          (result.1, true, result.2.2)
        else result
      else result
    let result :=
      if p.mode = Mode.MODE2 then
        let result := (DisplayStatus.OAMScan, result.2.1, result.2.2)
        if bcontains p.status Status.mode_two_select then
          (result.1, true, result.2.2)
        else result
      else result
    let result :=
      if p.mode = Mode.MODE3 then
        (DisplayStatus.NewScanline, result.2.1, result.2.2)
      else result
    let new_mode := modeNum p.mode
    let new_mode := if !bcontains p.control Control.lcd_enable then 0 else new_mode
    ({ p with status := (p.status &&& 0xfc) ||| new_mode }, result)
  else (p, result)

/-- Ppu::tick.  456 cycles per scanline, 154 scanlines; returns the display
status together with the LCD and VBlank interrupt requests.  The three
source blocks are the three stage functions above, applied in source
order. -/
def tick (p : Ppu) (cycles : Nat) : Ppu × DisplayStatus × Bool × Bool :=
  let p := { p with cycle := p.cycle + cycles }
  let prior_mode := p.mode
  let pr := tick_scanline p (DisplayStatus.DoNothing, false, false)
  let p := tick_mode_select pr.1
  let pr2 := tick_mode_change prior_mode p pr.2
  (pr2.1, pr2.2)

end Ppu

/-! ## cartridge.rs, the flat mapper (Mbc0) -/

structure Cart where
  cartridge_rom : Nat → Nat
  cartridge_ram : Nat → Nat

namespace Cart

def read_bank0 (c : Cart) (addr : Nat) : Nat := c.cartridge_rom addr

def read_bankn (c : Cart) (addr : Nat) : Nat := c.cartridge_rom addr

def write_bank0 (c : Cart) (_addr _val : Nat) : Cart := c

def write_bankn (c : Cart) (_addr _val : Nat) : Cart := c

/-- Mbc0::ram_read indexes the RAM with the absolute bus address, exactly as
the source does. -/
def ram_read (c : Cart) (addr : Nat) : Nat := c.cartridge_ram addr

def ram_write (c : Cart) (addr val : Nat) : Cart :=
  { c with cartridge_ram := fun i => if i = addr then val else c.cartridge_ram i }

end Cart

/-! ## opcodes.rs -/

inductive TargetReg where
  | NoneReg
  | R8 (r : Nat)
  | R16 (r : Nat)
  | R16stk (r : Nat)
  | R16mem (r : Nat)
  | Cond (c : Nat)
  | B3 (b : Nat)
  | Tgt3 (t : Nat)
  | A
  | C
  | SP
  | Imm8
  | Imm16
  | Ptr
deriving Repr, DecidableEq

structure Opcode where
  name : String
  reg1 : TargetReg
  reg2 : TargetReg
  bytes : Nat
  cycles : Nat
deriving Repr, DecidableEq

/-- the unprefixed opcode table, as the ordered sequence of
`map.insert` calls building `CPU_OP_CODES` (a later insert for the same
key overwrites the earlier one, as in `HashMap::insert`). -/
def CPU_OP_CODES : List (Nat × Opcode) := [
  (0x88, Opcode.mk "ADC" TargetReg.A (TargetReg.R8 0) 1 1),
  (0x89, Opcode.mk "ADC" TargetReg.A (TargetReg.R8 1) 1 1),
  (0x8a, Opcode.mk "ADC" TargetReg.A (TargetReg.R8 2) 1 1),
  (0x8b, Opcode.mk "ADC" TargetReg.A (TargetReg.R8 3) 1 1),
  (0x8c, Opcode.mk "ADC" TargetReg.A (TargetReg.R8 4) 1 1),
  (0x8d, Opcode.mk "ADC" TargetReg.A (TargetReg.R8 5) 1 1),
  (0x8e, Opcode.mk "ADC" TargetReg.A (TargetReg.R8 6) 1 2),
  (0x8f, Opcode.mk "ADC" TargetReg.A (TargetReg.R8 7) 1 1),
  (0xce, Opcode.mk "ADC" TargetReg.A TargetReg.Imm8 2 2),
  (0x80, Opcode.mk "ADD" TargetReg.A (TargetReg.R8 0) 1 1),
  (0x81, Opcode.mk "ADD" TargetReg.A (TargetReg.R8 1) 1 1),
  (0x82, Opcode.mk "ADD" TargetReg.A (TargetReg.R8 2) 1 1),
  (0x83, Opcode.mk "ADD" TargetReg.A (TargetReg.R8 3) 1 1),
  (0x84, Opcode.mk "ADD" TargetReg.A (TargetReg.R8 4) 1 1),
  (0x85, Opcode.mk "ADD" TargetReg.A (TargetReg.R8 5) 1 1),
  (0x86, Opcode.mk "ADD" TargetReg.A (TargetReg.R8 6) 1 2),
  (0x87, Opcode.mk "ADD" TargetReg.A (TargetReg.R8 7) 1 1),
  (0xc6, Opcode.mk "ADD" TargetReg.A TargetReg.Imm8 2 2),
  (0x09, Opcode.mk "ADD" (TargetReg.R16 2) (TargetReg.R16 0) 2 1),
  (0x19, Opcode.mk "ADD" (TargetReg.R16 2) (TargetReg.R16 1) 2 1),
  (0x29, Opcode.mk "ADD" (TargetReg.R16 2) (TargetReg.R16 2) 2 1),
  (0x39, Opcode.mk "ADD" (TargetReg.R16 2) (TargetReg.R16 3) 2 1),
  (0xe8, Opcode.mk "ADD" TargetReg.SP TargetReg.Imm8 2 4),
  (0xa0, Opcode.mk "AND" TargetReg.A (TargetReg.R8 0) 1 1),
  (0xa1, Opcode.mk "AND" TargetReg.A (TargetReg.R8 1) 1 1),
  (0xa2, Opcode.mk "AND" TargetReg.A (TargetReg.R8 2) 1 1),
  (0xa3, Opcode.mk "AND" TargetReg.A (TargetReg.R8 3) 1 1),
  (0xa4, Opcode.mk "AND" TargetReg.A (TargetReg.R8 4) 1 1),
  (0xa5, Opcode.mk "AND" TargetReg.A (TargetReg.R8 5) 1 1),
  (0xa6, Opcode.mk "AND" TargetReg.A (TargetReg.R8 6) 1 2),
  (0xa7, Opcode.mk "AND" TargetReg.A (TargetReg.R8 7) 1 1),
  (0xe6, Opcode.mk "AND" TargetReg.A TargetReg.Imm8 2 2),
  (0xcd, Opcode.mk "CALL" TargetReg.Imm16 TargetReg.NoneReg 3 6),
  (0xc4, Opcode.mk "CALL" (TargetReg.Cond 0) TargetReg.Imm16 3 3),
  (0xcc, Opcode.mk "CALL" (TargetReg.Cond 1) TargetReg.Imm16 3 3),
  (0xd4, Opcode.mk "CALL" (TargetReg.Cond 2) TargetReg.Imm16 3 3),
  (0xdc, Opcode.mk "CALL" (TargetReg.Cond 3) TargetReg.Imm16 3 3),
  (0x3f, Opcode.mk "CCF" TargetReg.NoneReg TargetReg.NoneReg 1 1),
  (0xb8, Opcode.mk "CP" TargetReg.A (TargetReg.R8 0) 1 1),
  (0xb9, Opcode.mk "CP" TargetReg.A (TargetReg.R8 1) 1 1),
  (0xba, Opcode.mk "CP" TargetReg.A (TargetReg.R8 2) 1 1),
  (0xbb, Opcode.mk "CP" TargetReg.A (TargetReg.R8 3) 1 1),
  (0xbc, Opcode.mk "CP" TargetReg.A (TargetReg.R8 4) 1 1),
  (0xbd, Opcode.mk "CP" TargetReg.A (TargetReg.R8 5) 1 1),
  (0xbe, Opcode.mk "CP" TargetReg.A (TargetReg.R8 6) 1 2),
  (0xbf, Opcode.mk "CP" TargetReg.A (TargetReg.R8 7) 1 1),
  (0xfe, Opcode.mk "CP" TargetReg.A TargetReg.Imm8 2 2),
  (0x2f, Opcode.mk "CPL" TargetReg.NoneReg TargetReg.NoneReg 2 2),
  (0x27, Opcode.mk "DAA" TargetReg.NoneReg TargetReg.NoneReg 1 1),
  (0x05, Opcode.mk "DEC" (TargetReg.R8 0) TargetReg.NoneReg 1 1),
  (0x0d, Opcode.mk "DEC" (TargetReg.R8 1) TargetReg.NoneReg 1 1),
  (0x15, Opcode.mk "DEC" (TargetReg.R8 2) TargetReg.NoneReg 1 1),
  (0x1d, Opcode.mk "DEC" (TargetReg.R8 3) TargetReg.NoneReg 1 1),
  (0x25, Opcode.mk "DEC" (TargetReg.R8 4) TargetReg.NoneReg 1 1),
  (0x2d, Opcode.mk "DEC" (TargetReg.R8 5) TargetReg.NoneReg 1 1),
  (0x35, Opcode.mk "DEC" (TargetReg.R8 6) TargetReg.NoneReg 1 3),
  (0x3d, Opcode.mk "DEC" (TargetReg.R8 7) TargetReg.NoneReg 1 1),
  (0x0b, Opcode.mk "DEC" (TargetReg.R16 0) TargetReg.NoneReg 1 2),
  (0x1b, Opcode.mk "DEC" (TargetReg.R16 1) TargetReg.NoneReg 1 2),
  (0x2b, Opcode.mk "DEC" (TargetReg.R16 2) TargetReg.NoneReg 1 2),
  (0x3b, Opcode.mk "DEC" (TargetReg.R16 3) TargetReg.NoneReg 1 2),
  (0xf3, Opcode.mk "DI" TargetReg.NoneReg TargetReg.NoneReg 1 1),
  (0xfb, Opcode.mk "EI" TargetReg.NoneReg TargetReg.NoneReg 1 1),
  (0x76, Opcode.mk "HALT" TargetReg.NoneReg TargetReg.NoneReg 1 0),
  (0x04, Opcode.mk "INC" (TargetReg.R8 0) TargetReg.NoneReg 1 1),
  (0x0c, Opcode.mk "INC" (TargetReg.R8 1) TargetReg.NoneReg 1 1),
  (0x14, Opcode.mk "INC" (TargetReg.R8 2) TargetReg.NoneReg 1 1),
  (0x1c, Opcode.mk "INC" (TargetReg.R8 3) TargetReg.NoneReg 1 1),
  (0x24, Opcode.mk "INC" (TargetReg.R8 4) TargetReg.NoneReg 1 1),
  (0x2c, Opcode.mk "INC" (TargetReg.R8 5) TargetReg.NoneReg 1 1),
  (0x34, Opcode.mk "INC" (TargetReg.R8 6) TargetReg.NoneReg 1 3),
  (0x3c, Opcode.mk "INC" (TargetReg.R8 7) TargetReg.NoneReg 1 1),
  (0x03, Opcode.mk "INC" (TargetReg.R16 0) TargetReg.NoneReg 1 2),
  (0x13, Opcode.mk "INC" (TargetReg.R16 1) TargetReg.NoneReg 1 2),
  (0x23, Opcode.mk "INC" (TargetReg.R16 2) TargetReg.NoneReg 1 2),
  (0x33, Opcode.mk "INC" (TargetReg.R16 3) TargetReg.NoneReg 1 2),
  (0xc3, Opcode.mk "JP" TargetReg.Imm16 TargetReg.NoneReg 3 4),
  (0xc2, Opcode.mk "JP" (TargetReg.Cond 0) TargetReg.Imm16 3 3),
  (0xca, Opcode.mk "JP" (TargetReg.Cond 1) TargetReg.Imm16 3 3),
  (0xd2, Opcode.mk "JP" (TargetReg.Cond 2) TargetReg.Imm16 3 3),
  (0xda, Opcode.mk "JP" (TargetReg.Cond 2) TargetReg.Imm16 3 3),
  (0xd9, Opcode.mk "JP" TargetReg.NoneReg TargetReg.NoneReg 1 1),
  (0x18, Opcode.mk "JR" TargetReg.Imm8 TargetReg.NoneReg 2 3),
  (0x20, Opcode.mk "JR" (TargetReg.Cond 0) TargetReg.Imm8 2 2),
  (0x28, Opcode.mk "JR" (TargetReg.Cond 1) TargetReg.Imm8 2 2),
  (0x30, Opcode.mk "JR" (TargetReg.Cond 2) TargetReg.Imm8 2 2),
  (0x38, Opcode.mk "JR" (TargetReg.Cond 3) TargetReg.Imm8 2 2),
  (0x40, Opcode.mk "LD" (TargetReg.R8 0) (TargetReg.R8 0) 1 1),
  (0x41, Opcode.mk "LD" (TargetReg.R8 0) (TargetReg.R8 1) 1 1),
  (0x42, Opcode.mk "LD" (TargetReg.R8 0) (TargetReg.R8 2) 1 1),
  (0x43, Opcode.mk "LD" (TargetReg.R8 0) (TargetReg.R8 3) 1 1),
  (0x44, Opcode.mk "LD" (TargetReg.R8 0) (TargetReg.R8 4) 1 1),
  (0x45, Opcode.mk "LD" (TargetReg.R8 0) (TargetReg.R8 5) 1 1),
  (0x46, Opcode.mk "LD" (TargetReg.R8 0) (TargetReg.R8 6) 1 2),
  (0x47, Opcode.mk "LD" (TargetReg.R8 0) (TargetReg.R8 7) 1 1),
  (0x48, Opcode.mk "LD" (TargetReg.R8 1) (TargetReg.R8 0) 1 1),
  (0x49, Opcode.mk "LD" (TargetReg.R8 1) (TargetReg.R8 1) 1 1),
  (0x4a, Opcode.mk "LD" (TargetReg.R8 1) (TargetReg.R8 2) 1 1),
  (0x4b, Opcode.mk "LD" (TargetReg.R8 1) (TargetReg.R8 3) 1 1),
  (0x4c, Opcode.mk "LD" (TargetReg.R8 1) (TargetReg.R8 4) 1 1),
  (0x4d, Opcode.mk "LD" (TargetReg.R8 1) (TargetReg.R8 5) 1 1),
  (0x4e, Opcode.mk "LD" (TargetReg.R8 1) (TargetReg.R8 6) 1 2),
  (0x4f, Opcode.mk "LD" (TargetReg.R8 1) (TargetReg.R8 7) 1 1),
  (0x50, Opcode.mk "LD" (TargetReg.R8 2) (TargetReg.R8 0) 1 1),
  (0x51, Opcode.mk "LD" (TargetReg.R8 2) (TargetReg.R8 1) 1 1),
  (0x52, Opcode.mk "LD" (TargetReg.R8 2) (TargetReg.R8 2) 1 1),
  (0x53, Opcode.mk "LD" (TargetReg.R8 2) (TargetReg.R8 3) 1 1),
  (0x54, Opcode.mk "LD" (TargetReg.R8 2) (TargetReg.R8 4) 1 1),
  (0x55, Opcode.mk "LD" (TargetReg.R8 2) (TargetReg.R8 5) 1 1),
  (0x56, Opcode.mk "LD" (TargetReg.R8 2) (TargetReg.R8 6) 1 2),
  (0x57, Opcode.mk "LD" (TargetReg.R8 2) (TargetReg.R8 7) 1 1),
  (0x58, Opcode.mk "LD" (TargetReg.R8 3) (TargetReg.R8 0) 1 1),
  (0x59, Opcode.mk "LD" (TargetReg.R8 3) (TargetReg.R8 1) 1 1),
  (0x5a, Opcode.mk "LD" (TargetReg.R8 3) (TargetReg.R8 2) 1 1),
  (0x5b, Opcode.mk "LD" (TargetReg.R8 3) (TargetReg.R8 3) 1 1),
  (0x5c, Opcode.mk "LD" (TargetReg.R8 3) (TargetReg.R8 4) 1 1),
  (0x5d, Opcode.mk "LD" (TargetReg.R8 3) (TargetReg.R8 5) 1 1),
  (0x5e, Opcode.mk "LD" (TargetReg.R8 3) (TargetReg.R8 6) 1 2),
  (0x5f, Opcode.mk "LD" (TargetReg.R8 3) (TargetReg.R8 7) 1 1),
  (0x60, Opcode.mk "LD" (TargetReg.R8 4) (TargetReg.R8 0) 1 1),
  (0x61, Opcode.mk "LD" (TargetReg.R8 4) (TargetReg.R8 1) 1 1),
  (0x62, Opcode.mk "LD" (TargetReg.R8 4) (TargetReg.R8 2) 1 1),
  (0x63, Opcode.mk "LD" (TargetReg.R8 4) (TargetReg.R8 3) 1 1),
  (0x64, Opcode.mk "LD" (TargetReg.R8 4) (TargetReg.R8 4) 1 1),
  (0x65, Opcode.mk "LD" (TargetReg.R8 4) (TargetReg.R8 5) 1 1),
  (0x66, Opcode.mk "LD" (TargetReg.R8 4) (TargetReg.R8 6) 1 2),
  (0x67, Opcode.mk "LD" (TargetReg.R8 4) (TargetReg.R8 7) 1 1),
  (0x68, Opcode.mk "LD" (TargetReg.R8 5) (TargetReg.R8 0) 1 1),
  (0x69, Opcode.mk "LD" (TargetReg.R8 5) (TargetReg.R8 1) 1 1),
  (0x6a, Opcode.mk "LD" (TargetReg.R8 5) (TargetReg.R8 2) 1 1),
  (0x6b, Opcode.mk "LD" (TargetReg.R8 5) (TargetReg.R8 3) 1 1),
  (0x6c, Opcode.mk "LD" (TargetReg.R8 5) (TargetReg.R8 4) 1 1),
  (0x6d, Opcode.mk "LD" (TargetReg.R8 5) (TargetReg.R8 5) 1 1),
  (0x6e, Opcode.mk "LD" (TargetReg.R8 5) (TargetReg.R8 6) 1 2),
  (0x6f, Opcode.mk "LD" (TargetReg.R8 5) (TargetReg.R8 7) 1 1),
  (0x70, Opcode.mk "LD" (TargetReg.R8 6) (TargetReg.R8 0) 1 2),
  (0x71, Opcode.mk "LD" (TargetReg.R8 6) (TargetReg.R8 1) 1 2),
  (0x72, Opcode.mk "LD" (TargetReg.R8 6) (TargetReg.R8 2) 1 2),
  (0x73, Opcode.mk "LD" (TargetReg.R8 6) (TargetReg.R8 3) 1 2),
  (0x74, Opcode.mk "LD" (TargetReg.R8 6) (TargetReg.R8 4) 1 2),
  (0x75, Opcode.mk "LD" (TargetReg.R8 6) (TargetReg.R8 5) 1 2),
  (0x77, Opcode.mk "LD" (TargetReg.R8 6) (TargetReg.R8 7) 1 2),
  (0x78, Opcode.mk "LD" (TargetReg.R8 7) (TargetReg.R8 0) 1 1),
  (0x79, Opcode.mk "LD" (TargetReg.R8 7) (TargetReg.R8 1) 1 1),
  (0x7a, Opcode.mk "LD" (TargetReg.R8 7) (TargetReg.R8 2) 1 1),
  (0x7b, Opcode.mk "LD" (TargetReg.R8 7) (TargetReg.R8 3) 1 1),
  (0x7c, Opcode.mk "LD" (TargetReg.R8 7) (TargetReg.R8 4) 1 1),
  (0x7d, Opcode.mk "LD" (TargetReg.R8 7) (TargetReg.R8 5) 1 1),
  (0x7e, Opcode.mk "LD" (TargetReg.R8 7) (TargetReg.R8 6) 1 2),
  (0x7f, Opcode.mk "LD" (TargetReg.R8 7) (TargetReg.R8 7) 1 1),
  (0x06, Opcode.mk "LD" (TargetReg.R8 0) TargetReg.Imm8 2 2),
  (0x0e, Opcode.mk "LD" (TargetReg.R8 1) TargetReg.Imm8 2 2),
  (0x16, Opcode.mk "LD" (TargetReg.R8 2) TargetReg.Imm8 2 2),
  (0x1e, Opcode.mk "LD" (TargetReg.R8 3) TargetReg.Imm8 2 2),
  (0x26, Opcode.mk "LD" (TargetReg.R8 4) TargetReg.Imm8 2 2),
  (0x2e, Opcode.mk "LD" (TargetReg.R8 5) TargetReg.Imm8 2 2),
  (0x36, Opcode.mk "LD" (TargetReg.R8 6) TargetReg.Imm8 2 3),
  (0x3e, Opcode.mk "LD" (TargetReg.R8 7) TargetReg.Imm8 2 2),
  (0x01, Opcode.mk "LD" (TargetReg.R16 0) TargetReg.Imm16 3 3),
  (0x11, Opcode.mk "LD" (TargetReg.R16 1) TargetReg.Imm16 3 3),
  (0x21, Opcode.mk "LD" (TargetReg.R16 2) TargetReg.Imm16 3 3),
  (0x31, Opcode.mk "LD" (TargetReg.R16 3) TargetReg.Imm16 3 3),
  (0x02, Opcode.mk "LD" (TargetReg.R16mem 0) TargetReg.A 1 2),
  (0x12, Opcode.mk "LD" (TargetReg.R16mem 1) TargetReg.A 1 2),
  (0x22, Opcode.mk "LD" (TargetReg.R16mem 2) TargetReg.A 1 2),
  (0x32, Opcode.mk "LD" (TargetReg.R16mem 3) TargetReg.A 1 2),
  (0xe2, Opcode.mk "LDH" TargetReg.C TargetReg.A 1 2),
  (0x0a, Opcode.mk "LD" TargetReg.A (TargetReg.R16mem 0) 1 2),
  (0x1a, Opcode.mk "LD" TargetReg.A (TargetReg.R16mem 1) 1 2),
  (0x2a, Opcode.mk "LD" TargetReg.A (TargetReg.R16mem 2) 1 2),
  (0x3a, Opcode.mk "LD" TargetReg.A (TargetReg.R16mem 3) 1 2),
  (0xfa, Opcode.mk "LD" TargetReg.A TargetReg.Ptr 3 4),
  (0xe0, Opcode.mk "LDH" TargetReg.Imm8 TargetReg.A 2 3),
  (0xea, Opcode.mk "LD" TargetReg.Ptr TargetReg.A 3 4),
  (0xf0, Opcode.mk "LDH" TargetReg.A TargetReg.Imm8 2 3),
  (0xf2, Opcode.mk "LDH" TargetReg.A TargetReg.C 1 2),
  (0x08, Opcode.mk "LD" TargetReg.Imm16 TargetReg.SP 3 5),
  (0xf8, Opcode.mk "LD" (TargetReg.R16 2) TargetReg.Imm8 2 3),
  (0xf9, Opcode.mk "LD" TargetReg.SP (TargetReg.R16 2) 1 2),
  (0x00, Opcode.mk "NOP" TargetReg.NoneReg TargetReg.NoneReg 1 1),
  (0xb0, Opcode.mk "OR" TargetReg.A (TargetReg.R8 0) 1 1),
  (0xb1, Opcode.mk "OR" TargetReg.A (TargetReg.R8 1) 1 1),
  (0xb2, Opcode.mk "OR" TargetReg.A (TargetReg.R8 2) 1 1),
  (0xb3, Opcode.mk "OR" TargetReg.A (TargetReg.R8 3) 1 1),
  (0xb4, Opcode.mk "OR" TargetReg.A (TargetReg.R8 4) 1 1),
  (0xb5, Opcode.mk "OR" TargetReg.A (TargetReg.R8 5) 1 1),
  (0xb6, Opcode.mk "OR" TargetReg.A (TargetReg.R8 6) 1 2),
  (0xb7, Opcode.mk "OR" TargetReg.A (TargetReg.R8 7) 1 1),
  (0xf6, Opcode.mk "OR" TargetReg.A TargetReg.Imm8 2 2),
  (0xc1, Opcode.mk "POP" (TargetReg.R16stk 0) TargetReg.NoneReg 1 3),
  (0xd1, Opcode.mk "POP" (TargetReg.R16stk 1) TargetReg.NoneReg 1 3),
  (0xe1, Opcode.mk "POP" (TargetReg.R16stk 2) TargetReg.NoneReg 1 3),
  (0xf1, Opcode.mk "POP" (TargetReg.R16stk 3) TargetReg.NoneReg 1 3),
  (0xc5, Opcode.mk "PUSH" (TargetReg.R16stk 0) TargetReg.NoneReg 1 4),
  (0xd5, Opcode.mk "PUSH" (TargetReg.R16stk 1) TargetReg.NoneReg 1 4),
  (0xe5, Opcode.mk "PUSH" (TargetReg.R16stk 2) TargetReg.NoneReg 1 4),
  (0xf5, Opcode.mk "PUSH" (TargetReg.R16stk 3) TargetReg.NoneReg 1 4),
  (0xc9, Opcode.mk "RET" TargetReg.NoneReg TargetReg.NoneReg 1 4),
  (0xc0, Opcode.mk "RET" (TargetReg.Cond 0) TargetReg.NoneReg 1 2),
  (0xc8, Opcode.mk "RET" (TargetReg.Cond 1) TargetReg.NoneReg 1 2),
  (0xd0, Opcode.mk "RET" (TargetReg.Cond 2) TargetReg.NoneReg 1 2),
  (0xd8, Opcode.mk "RET" (TargetReg.Cond 3) TargetReg.NoneReg 1 2),
  (0xd9, Opcode.mk "RETI" TargetReg.NoneReg TargetReg.NoneReg 1 4),
  (0x17, Opcode.mk "RLA" TargetReg.NoneReg TargetReg.NoneReg 1 1),
  (0x07, Opcode.mk "RLCA" TargetReg.NoneReg TargetReg.NoneReg 1 1),
  (0x1f, Opcode.mk "RRA" TargetReg.NoneReg TargetReg.NoneReg 1 1),
  (0x0f, Opcode.mk "RRCA" TargetReg.NoneReg TargetReg.NoneReg 1 1),
  (0xc7, Opcode.mk "RST" (TargetReg.Tgt3 0) TargetReg.NoneReg 1 4),
  (0xcf, Opcode.mk "RST" (TargetReg.Tgt3 1) TargetReg.NoneReg 1 4),
  (0xd7, Opcode.mk "RST" (TargetReg.Tgt3 2) TargetReg.NoneReg 1 4),
  (0xdf, Opcode.mk "RST" (TargetReg.Tgt3 3) TargetReg.NoneReg 1 4),
  (0xe7, Opcode.mk "RST" (TargetReg.Tgt3 4) TargetReg.NoneReg 1 4),
  (0xef, Opcode.mk "RST" (TargetReg.Tgt3 5) TargetReg.NoneReg 1 4),
  (0xf7, Opcode.mk "RST" (TargetReg.Tgt3 6) TargetReg.NoneReg 1 4),
  (0xff, Opcode.mk "RST" (TargetReg.Tgt3 7) TargetReg.NoneReg 1 4),
  (0x98, Opcode.mk "SBC" TargetReg.A (TargetReg.R8 0) 1 1),
  (0x99, Opcode.mk "SBC" TargetReg.A (TargetReg.R8 1) 1 1),
  (0x9a, Opcode.mk "SBC" TargetReg.A (TargetReg.R8 2) 1 1),
  (0x9b, Opcode.mk "SBC" TargetReg.A (TargetReg.R8 3) 1 1),
  (0x9c, Opcode.mk "SBC" TargetReg.A (TargetReg.R8 4) 1 1),
  (0x9d, Opcode.mk "SBC" TargetReg.A (TargetReg.R8 5) 1 1),
  (0x9e, Opcode.mk "SBC" TargetReg.A (TargetReg.R8 6) 1 2),
  (0x9f, Opcode.mk "SBC" TargetReg.A (TargetReg.R8 7) 1 1),
  (0xde, Opcode.mk "SBC" TargetReg.A TargetReg.Imm8 2 2),
  (0x37, Opcode.mk "SCF" TargetReg.NoneReg TargetReg.NoneReg 1 1),
  (0x10, Opcode.mk "STOP" TargetReg.NoneReg TargetReg.NoneReg 2 0),
  (0x90, Opcode.mk "SUB" TargetReg.A (TargetReg.R8 0) 1 1),
  (0x91, Opcode.mk "SUB" TargetReg.A (TargetReg.R8 1) 1 1),
  (0x92, Opcode.mk "SUB" TargetReg.A (TargetReg.R8 2) 1 1),
  (0x93, Opcode.mk "SUB" TargetReg.A (TargetReg.R8 3) 1 1),
  (0x94, Opcode.mk "SUB" TargetReg.A (TargetReg.R8 4) 1 1),
  (0x95, Opcode.mk "SUB" TargetReg.A (TargetReg.R8 5) 1 1),
  (0x96, Opcode.mk "SUB" TargetReg.A (TargetReg.R8 6) 1 2),
  (0x97, Opcode.mk "SUB" TargetReg.A (TargetReg.R8 7) 1 1),
  (0xd6, Opcode.mk "SUB" TargetReg.A TargetReg.Imm8 2 2),
  (0xa8, Opcode.mk "XOR" TargetReg.A (TargetReg.R8 0) 1 1),
  (0xa9, Opcode.mk "XOR" TargetReg.A (TargetReg.R8 1) 1 1),
  (0xaa, Opcode.mk "XOR" TargetReg.A (TargetReg.R8 2) 1 1),
  (0xab, Opcode.mk "XOR" TargetReg.A (TargetReg.R8 3) 1 1),
  (0xac, Opcode.mk "XOR" TargetReg.A (TargetReg.R8 4) 1 1),
  (0xad, Opcode.mk "XOR" TargetReg.A (TargetReg.R8 5) 1 1),
  (0xae, Opcode.mk "XOR" TargetReg.A (TargetReg.R8 6) 1 2),
  (0xaf, Opcode.mk "XOR" TargetReg.A (TargetReg.R8 7) 1 1),
  (0xee, Opcode.mk "XOR" TargetReg.A TargetReg.Imm8 2 2)]

/-- HashMap lookup over the insertion sequence: the last insert for a key
wins. -/
def hashGet (m : List (Nat × Opcode)) (k : Nat) : Option Opcode :=
  m.foldl (fun acc p => if p.1 = k then some p.2 else acc) Option.none

/-! ## bus.rs -/

/-- Interrupt bit masks (the `Interrupt` bitflags). -/
def Interrupt.vblank : Nat := 0x01
def Interrupt.lcd : Nat := 0x02
def Interrupt.timer : Nat := 0x04
def Interrupt.serial : Nat := 0x08
def Interrupt.joypad : Nat := 0x10

structure Bus where
  cpu_ram : Nat → Nat
  hram : Nat → Nat
  cartridge : Cart
  joypad : Joypad
  timer : Timer
  interrupt_enable : Nat
  interrupt_flag : Nat
  ppu : Ppu
  apu : Apu

namespace Bus

def new (cartridge : Cart) : Bus :=
  { cpu_ram := fun _ => 0, hram := fun _ => 0, cartridge := cartridge,
    joypad := Joypad.new, timer := Timer.new, interrupt_enable := 0,
    interrupt_flag := 0, ppu := Ppu.new, apu := Apu.new }

def vblank_enabled (b : Bus) : Bool := bcontains b.interrupt_enable Interrupt.vblank
def vblank_flag (b : Bus) : Bool := bcontains b.interrupt_flag Interrupt.vblank
def lcd_enabled (b : Bus) : Bool := bcontains b.interrupt_enable Interrupt.lcd
def lcd_flag (b : Bus) : Bool := bcontains b.interrupt_flag Interrupt.lcd
def timer_enabled (b : Bus) : Bool := bcontains b.interrupt_enable Interrupt.timer
def timer_flag (b : Bus) : Bool := bcontains b.interrupt_flag Interrupt.timer
def serial_enabled (b : Bus) : Bool := bcontains b.interrupt_enable Interrupt.serial
def serial_flag (b : Bus) : Bool := bcontains b.interrupt_flag Interrupt.serial
def joypad_enabled (b : Bus) : Bool := bcontains b.interrupt_enable Interrupt.joypad
def joypad_flag (b : Bus) : Bool := bcontains b.interrupt_flag Interrupt.joypad

/-- the `for _ in 0..cycles { self.apu.tick() }` loop of Bus::tick. -/
def apuTicks : Nat → Apu → Apu
  | 0, a => a
  | n + 1, a => apuTicks n a.tick

/-- Bus::tick: advance Timer, PPU, Joypad interrupt latch, APU; the boolean
result reports a completed frame (the `render_scanline` call writes only
the omitted host frame buffer; the `oam_scan` state change is kept). -/
def tick (b : Bus) (cycles : Nat) : Bus × Bool :=
  let (timer, timer_interrupt) := b.timer.tick cycles
  let b := { b with timer := timer }
  let b := if timer_interrupt then
      { b with interrupt_flag := binsert b.interrupt_flag Interrupt.timer } else b
  let (ppu, display_result, lcd_interrupt, vblank_interrupt) := b.ppu.tick cycles
  let b := { b with ppu := ppu }
  let b := if lcd_interrupt then
      { b with interrupt_flag := binsert b.interrupt_flag Interrupt.lcd } else b
  let b := if vblank_interrupt then
      { b with interrupt_flag := binsert b.interrupt_flag Interrupt.vblank } else b
  let b := if b.joypad.interrupt then
      { b with joypad := { b.joypad with interrupt := false },
               interrupt_flag := binsert b.interrupt_flag Interrupt.joypad } else b
  let b := { b with apu := apuTicks cycles b.apu }
  match display_result with
  | DisplayStatus.DoNothing => (b, false)
  | DisplayStatus.OAMScan => (b, false)
  | DisplayStatus.NewScanline => ({ b with ppu := b.ppu.oam_scan }, false)
  | DisplayStatus.NewFrame => (b, true)

/-- Bus::mem_read, one guard per match arm in source order; `none` is a
panic (echo RAM, the serial `todo!`, unmapped addresses). -/
def mem_read (b : Bus) (addr : Nat) : Option Nat :=
  if addr ≤ 0x3FFF then some (b.cartridge.read_bank0 addr)
  else if addr ≤ 0x7FFF then some (b.cartridge.read_bankn addr)
  else if addr ≤ 0x9FFF then b.ppu.read_vram addr
  else if addr ≤ 0xBFFF then some (b.cartridge.ram_read addr)
  else if addr ≤ 0xDFFF then some (b.cpu_ram (addr % 0x2000))
  else if addr ≤ 0xFDFF then none
  else if addr ≤ 0xFE9F then b.ppu.oam_read addr
  else if addr ≤ 0xFEFF then some 0
  else if addr = 0xFF00 then some b.joypad.read
  else if addr = 0xFF01 ∨ addr = 0xFF02 then none
  else if addr = 0xFF04 then some b.timer.divider_counter
  else if addr = 0xFF05 then some b.timer.timer_counter
  else if addr = 0xFF06 then some b.timer.timer_modulo
  else if addr = 0xFF07 then some b.timer.tac_read
  else if addr = 0xFF10 then some b.apu.square1.sweep_read
  else if addr = 0xFF11 then some b.apu.square1.length_timer_read
  else if addr = 0xFF12 then some b.apu.square1.envelope_read
  else if addr = 0xFF13 then some b.apu.square1.period_low_read
  else if addr = 0xFF14 then some b.apu.square1.control_read
  else if addr = 0xFF15 then some 0xff
  else if addr = 0xFF16 then some b.apu.square2.length_timer_read
  else if addr = 0xFF17 then some b.apu.square2.envelope_read
  else if addr = 0xFF18 then some b.apu.square2.period_low_read
  else if addr = 0xFF19 then some b.apu.square2.control_read
  else if addr = 0xFF1A then some b.apu.wave.dac_enable_read
  else if addr = 0xFF1B then some 0xff
  else if addr = 0xFF1C then some b.apu.wave.output_level_read
  else if addr = 0xFF1D then some b.apu.wave.period_low_read
  else if addr = 0xFF1E then some b.apu.wave.control_read
  else if addr = 0xFF1F then some 0xff
  else if addr = 0xFF20 then some 0xff
  else if addr = 0xFF21 then some b.apu.noise.envelope_read
  else if addr = 0xFF22 then some b.apu.noise.randomness_read
  else if addr = 0xFF23 then some b.apu.noise.control_read
  else if addr = 0xFF24 then some b.apu.volume_read
  else if addr = 0xFF25 then some b.apu.sound_panning_read
  else if addr = 0xFF26 then some b.apu.master_control_read
  else if 0xFF27 ≤ addr ∧ addr ≤ 0xFF2F then some 0xff
  else if 0xFF30 ≤ addr ∧ addr ≤ 0xFF3F then some (b.apu.wave.wave_ram_read addr)
  else if addr = 0xFF0F then some b.interrupt_flag
  else if addr = 0xFF40 then some b.ppu.read_ctrl
  else if addr = 0xFF41 then some b.ppu.read_status
  else if addr = 0xFF44 then some b.ppu.scanline
  else if addr = 0xFF45 then some b.ppu.lyc
  else if addr = 0xFF4D then some 0
  else if 0xFF80 ≤ addr ∧ addr ≤ 0xFFFE then some (b.hram (addr - 0xff80))
  else if addr = 0xFFFF then some b.interrupt_enable
  else none

/-- the OAM-DMA page fill: the first `n` iterations of the
`for (i, byte) in page.iter_mut().enumerate()` loop, each one a
`self.mem_read(start_addr + i)`. -/
def dmaBytes (b : Bus) (start : Nat) : Nat → Option (List Nat)
  | 0 => some []
  | n + 1 =>
    (dmaBytes b start n).bind fun acc =>
      (mem_read b (start + n)).map fun v => acc ++ [v]

/-- Bus::mem_write, one guard per match arm in source order; `none` is a
panic (echo RAM, the read-only LY register, the DMA `assert!`, the
`todo!` at FF6A/FF6B, unmapped addresses). -/
def mem_write (b : Bus) (addr data : Nat) : Option Bus :=
  if addr ≤ 0x3FFF then some { b with cartridge := b.cartridge.write_bank0 addr data }
  else if addr ≤ 0x7FFF then some { b with cartridge := b.cartridge.write_bankn addr data }
  else if addr ≤ 0x9FFF then (b.ppu.write_vram addr data).map fun p => { b with ppu := p }
  else if addr ≤ 0xBFFF then some { b with cartridge := b.cartridge.ram_write addr data }
  else if addr ≤ 0xDFFF then
    some { b with cpu_ram := fun i => if i = addr % 0x2000 then data else b.cpu_ram i }
  else if addr ≤ 0xFDFF then none
  else if addr ≤ 0xFE9F then (b.ppu.oam_write addr data).map fun p => { b with ppu := p }
  else if addr ≤ 0xFEFF then some b
  else if addr = 0xFF00 then some { b with joypad := b.joypad.write data }
  else if addr = 0xFF01 ∨ addr = 0xFF02 then some b
  else if addr = 0xFF04 then some { b with timer := { b.timer with divider_counter := 0 } }
  else if addr = 0xFF05 then some { b with timer := { b.timer with timer_counter := data } }
  else if addr = 0xFF06 then some { b with timer := { b.timer with timer_modulo := data } }
  else if addr = 0xFF07 then some { b with timer := b.timer.tac_write data }
  else if addr = 0xFF0F then some { b with interrupt_flag := data &&& 0x1f }
  else if addr = 0xFF10 then some { b with apu := { b.apu with square1 := b.apu.square1.sweep_write data } }
  else if addr = 0xFF11 then some { b with apu := { b.apu with square1 := b.apu.square1.length_timer_write data } }
  else if addr = 0xFF12 then some { b with apu := { b.apu with square1 := b.apu.square1.envelope_write data } }
  else if addr = 0xFF13 then some { b with apu := { b.apu with square1 := b.apu.square1.period_low_write data } }
  else if addr = 0xFF14 then some { b with apu := { b.apu with square1 := b.apu.square1.control_write data } }
  else if addr = 0xFF15 then some b
  else if addr = 0xFF16 then some { b with apu := { b.apu with square2 := b.apu.square2.length_timer_write data } }
  else if addr = 0xFF17 then some { b with apu := { b.apu with square2 := b.apu.square2.envelope_write data } }
  else if addr = 0xFF18 then some { b with apu := { b.apu with square2 := b.apu.square2.period_low_write data } }
  else if addr = 0xFF19 then some { b with apu := { b.apu with square2 := b.apu.square2.control_write data } }
  else if addr = 0xFF1A then some { b with apu := { b.apu with wave := b.apu.wave.dac_enable_write data } }
  else if addr = 0xFF1B then some { b with apu := { b.apu with wave := b.apu.wave.length_timer data } }
  else if addr = 0xFF1C then some { b with apu := { b.apu with wave := b.apu.wave.output_level_write data } }
  else if addr = 0xFF1D then some { b with apu := { b.apu with wave := b.apu.wave.period_low_write data } }
  else if addr = 0xFF1E then some { b with apu := { b.apu with wave := b.apu.wave.control_write data } }
  else if addr = 0xFF1F then some b
  else if addr = 0xFF20 then some { b with apu := { b.apu with noise := b.apu.noise.length_timer data } }
  else if addr = 0xFF21 then some { b with apu := { b.apu with noise := b.apu.noise.envelope_write data } }
  else if addr = 0xFF22 then some { b with apu := { b.apu with noise := b.apu.noise.randomness_write data } }
  else if addr = 0xFF23 then some { b with apu := { b.apu with noise := b.apu.noise.control_write data } }
  else if addr = 0xFF24 then some { b with apu := b.apu.volume_write data }
  else if addr = 0xFF25 then some { b with apu := b.apu.sound_panning_write data }
  else if addr = 0xFF26 then some { b with apu := b.apu.master_control_write data }
  else if 0xFF27 ≤ addr ∧ addr ≤ 0xFF2F then some b
  else if 0xFF30 ≤ addr ∧ addr ≤ 0xFF3F then
    some { b with apu := { b.apu with wave := b.apu.wave.wave_ram_write addr data } }
  else if addr = 0xFF40 then some { b with ppu := b.ppu.write_to_ctrl data }
  else if addr = 0xFF41 then some { b with ppu := b.ppu.write_status data }
  else if addr = 0xFF42 then some { b with ppu := { b.ppu with scy := data } }
  else if addr = 0xFF43 then some { b with ppu := { b.ppu with scx := data } }
  else if addr = 0xFF44 then none
  else if addr = 0xFF45 then some { b with ppu := { b.ppu with lyc := data } }
  else if addr = 0xFF46 then
    if data ≤ 0xDF then
      let start_addr := data <<< 8
      (dmaBytes b start_addr 0xA0).map fun bytes =>
        { b with ppu := b.ppu.oam_dma (fun i => bytes.getD i 0) }
    else none
  else if addr = 0xFF47 then some { b with ppu := { b.ppu with bg_palette := data } }
  else if addr = 0xFF48 then some { b with ppu := { b.ppu with obp0 := data } }
  else if addr = 0xFF49 then some { b with ppu := { b.ppu with obp1 := data } }
  else if addr = 0xFF4A then some { b with ppu := { b.ppu with wy := data } }
  else if addr = 0xFF4B then some { b with ppu := { b.ppu with wx := data } }
  else if addr = 0xFF4D then some b
  else if addr = 0xFF68 then some { b with ppu := { b.ppu with bcps := data } }
  else if addr = 0xFF69 then some { b with ppu := { b.ppu with bcpd := data } }
  else if addr = 0xFF6A ∨ addr = 0xFF6B then none
  else if 0xFF78 ≤ addr ∧ addr ≤ 0xFF7F then some b
  else if 0xFF80 ≤ addr ∧ addr ≤ 0xFFFE then
    some { b with hram := fun i => if i = addr - 0xff80 then data else b.hram i }
  else if addr = 0xFFFF then some { b with interrupt_enable := data &&& 0x1f }
  else none

def mem_read_u16 (b : Bus) (addr : Nat) : Option Nat :=
  (mem_read b addr).bind fun lo =>
    (mem_read b ((addr + 1) % 65536)).map fun hi => lo + (hi <<< 8)

def mem_write_u16 (b : Bus) (addr data : Nat) : Option Bus :=
  (mem_write b addr (data % 256)).bind fun b =>
    mem_write b ((addr + 1) % 65536) ((data / 256) % 256)

end Bus

/-! ## cpu.rs -/

/-- CpuFlag bit masks. -/
def CpuFlag.zero : Nat := 0x80
def CpuFlag.subtraction : Nat := 0x40
def CpuFlag.half_carry : Nat := 0x20
def CpuFlag.carry : Nat := 0x10

/-- `u16` wrapping subtraction (also the release semantics of plain `-`). -/
def wsub16 (x y : Nat) : Nat := (x + 65536 - y % 65536) % 65536

/-- `u16::wrapping_add_signed` with an offset that came from `as i8`. -/
def waddSigned8 (x off : Nat) : Nat :=
  if off < 0x80 then (x + off) % 65536 else (x + off + 65536 - 256) % 65536

structure Cpu where
  a : Nat
  b : Nat
  c : Nat
  d : Nat
  e : Nat
  flags : Nat
  h : Nat
  l : Nat
  stack_pointer : Nat
  program_counter : Nat
  ime : Bool
  bus : Bus
  prefixed_mode : Bool
  halted : Bool
  frame_ready : Bool
  cycles : Nat

namespace Cpu

def new (bus : Bus) : Cpu :=
  { a := 0, b := 0, c := 0, d := 0, e := 0, flags := 0, h := 0, l := 0,
    stack_pointer := 0xfffe, program_counter := 0x0100, ime := false,
    bus := bus, halted := false, prefixed_mode := false, frame_ready := false,
    cycles := 0 }

def get_bc (cpu : Cpu) : Nat := (cpu.b <<< 8) ||| cpu.c

def set_bc (cpu : Cpu) (value : Nat) : Cpu :=
  { cpu with c := value &&& 0xff, b := value >>> 8 }

def get_de (cpu : Cpu) : Nat := (cpu.d <<< 8) ||| cpu.e

def set_de (cpu : Cpu) (value : Nat) : Cpu :=
  { cpu with e := value &&& 0xff, d := value >>> 8 }

def get_hl (cpu : Cpu) : Nat := (cpu.h <<< 8) ||| cpu.l

def set_hl (cpu : Cpu) (value : Nat) : Cpu :=
  { cpu with l := value &&& 0xff, h := value >>> 8 }

/-- to_le_bytes: lo is the flag byte, hi goes to A. -/
def set_af (cpu : Cpu) (value : Nat) : Cpu :=
  { cpu with a := (value >>> 8) % 256, flags := value % 256 }

def get_af (cpu : Cpu) : Nat := (cpu.a <<< 8) ||| cpu.flags

def push_u8_to_stack (cpu : Cpu) (val : Nat) : Option Cpu :=
  (Bus.mem_write cpu.bus (wsub16 cpu.stack_pointer 1) val).map fun bus =>
    { cpu with stack_pointer := wsub16 cpu.stack_pointer 1, bus := bus }

/-- to_le_bytes: hi = val / 256 is pushed first, lo = val % 256 second. -/
def push_u16_to_stack (cpu : Cpu) (val : Nat) : Option Cpu :=
  (push_u8_to_stack cpu ((val / 256) % 256)).bind fun cpu =>
    push_u8_to_stack cpu (val % 256)

def pop_u16_from_stack (cpu : Cpu) : Option (Cpu × Nat) :=
  (Bus.mem_read_u16 cpu.bus cpu.stack_pointer).map fun val =>
    ({ cpu with stack_pointer := (cpu.stack_pointer + 2) % 65536 }, val)

def r8_read (cpu : Cpu) (reg : Nat) : Option Nat :=
  match reg with
  | 0 => some cpu.b
  | 1 => some cpu.c
  | 2 => some cpu.d
  | 3 => some cpu.e
  | 4 => some cpu.h
  | 5 => some cpu.l
  | 6 => Bus.mem_read cpu.bus cpu.get_hl
  | 7 => some cpu.a
  | _ => none

def r16_read (cpu : Cpu) (reg : Nat) : Option Nat :=
  match reg with
  | 0 => some cpu.get_bc
  | 1 => some cpu.get_de
  | 2 => some cpu.get_hl
  | 3 => some cpu.stack_pointer
  | _ => none

def r16stk_read (cpu : Cpu) (reg : Nat) : Option Nat :=
  match reg with
  | 0 => some cpu.get_bc
  | 1 => some cpu.get_de
  | 2 => some cpu.get_hl
  | 3 => some cpu.get_af
  | _ => none

def r16mem_read (cpu : Cpu) (reg : Nat) : Option (Cpu × Nat) :=
  match reg with
  | 0 => (Bus.mem_read cpu.bus cpu.get_bc).map fun val => (cpu, val)
  | 1 => (Bus.mem_read cpu.bus cpu.get_de).map fun val => (cpu, val)
  | 2 =>
    let addr := cpu.get_hl
    (Bus.mem_read cpu.bus addr).map fun val =>
      (cpu.set_hl ((addr + 1) % 65536), val)
  | 3 =>
    let addr := cpu.get_hl
    (Bus.mem_read cpu.bus addr).map fun val =>
      (cpu.set_hl (wsub16 addr 1), val)
  | _ => none

def tgt3_read (reg : Nat) : Option Nat :=
  match reg with
  | 0 => some 0
  | 1 => some 0x0008
  | 2 => some 0x0010
  | 3 => some 0x18
  | 4 => some 0x20
  | 5 => some 0x28
  | 6 => some 0x30
  | 7 => some 0x38
  | _ => none

def r8_write (cpu : Cpu) (reg value : Nat) : Option Cpu :=
  match reg with
  | 0 => some { cpu with b := value }
  | 1 => some { cpu with c := value }
  | 2 => some { cpu with d := value }
  | 3 => some { cpu with e := value }
  | 4 => some { cpu with h := value }
  | 5 => some { cpu with l := value }
  | 6 => (Bus.mem_write cpu.bus cpu.get_hl value).map fun bus => { cpu with bus := bus }
  | 7 => some { cpu with a := value }
  | _ => none

def r16_write (cpu : Cpu) (reg value : Nat) : Option Cpu :=
  match reg with
  | 0 => some (cpu.set_bc value)
  | 1 => some (cpu.set_de value)
  | 2 => some (cpu.set_hl value)
  | 3 => some { cpu with stack_pointer := value }
  | _ => none

def r16stk_write (cpu : Cpu) (reg value : Nat) : Option Cpu :=
  match reg with
  | 0 => some (cpu.set_bc value)
  | 1 => some (cpu.set_de value)
  | 2 => some (cpu.set_hl value)
  | 3 => some (cpu.set_af value)
  | _ => none

def r16mem_write (cpu : Cpu) (reg value : Nat) : Option Cpu :=
  match reg with
  | 0 => (Bus.mem_write cpu.bus cpu.get_bc (value % 256)).map fun bus => { cpu with bus := bus }
  | 1 => (Bus.mem_write cpu.bus cpu.get_de (value % 256)).map fun bus => { cpu with bus := bus }
  | 2 =>
    let addr := cpu.get_hl
    (Bus.mem_write cpu.bus addr (value &&& 0xff)).map fun bus =>
      ({ cpu with bus := bus }).set_hl ((addr + 1) % 65536)
  | 3 =>
    let addr := cpu.get_hl
    (Bus.mem_write cpu.bus addr (value &&& 0xff)).map fun bus =>
      ({ cpu with bus := bus }).set_hl (wsub16 addr 1)
  | _ => none

/-- Cpu::add_u8: the sum and the Z/N/H/C flag updates. -/
def add_u8 (cpu : Cpu) (arg1 arg2 : Nat) (carry : Bool) : Cpu × Nat :=
  let c := if carry ∧ bcontains cpu.flags CpuFlag.carry then 1 else 0
  let sum1 := (arg1 + arg2) % 256
  let c1 := arg1 + arg2 ≥ 256
  let sum := (sum1 + c) % 256
  let c2 := sum1 + c ≥ 256
  let flags := bset cpu.flags CpuFlag.zero (sum == 0)
  let flags := bremove flags CpuFlag.subtraction
  let half_carry := (arg1 &&& 0x0f) + (arg2 &&& 0x0f) + c
  let flags := bset flags CpuFlag.half_carry (half_carry &&& 0xf0 > 0)
  let flags := bset flags CpuFlag.carry (c1 || c2)
  ({ cpu with flags := flags }, sum)

/-- Cpu::add_u16: byte-wise via add_u8, preserving Z. -/
def add_u16 (cpu : Cpu) (arg1 arg2 : Nat) (carry : Bool) : Cpu × Nat :=
  let zero_flag := bcontains cpu.flags CpuFlag.zero
  let (cpu, lo_sum) := add_u8 cpu (arg1 % 256) (arg2 % 256) carry
  let (cpu, hi_sum) :=
    add_u8 cpu ((arg1 >>> 8) % 256) ((arg2 >>> 8) % 256)
      (bcontains cpu.flags CpuFlag.carry)
  let cpu := { cpu with flags := bset cpu.flags CpuFlag.zero zero_flag }
  (cpu, (hi_sum <<< 8) ||| lo_sum)

/-- Cpu::sub_u8. -/
def sub_u8 (cpu : Cpu) (arg1 arg2 : Nat) (carry : Bool) : Cpu × Nat :=
  let c := if carry ∧ bcontains cpu.flags CpuFlag.carry then 1 else 0
  let sum1 := (arg1 + 256 - arg2 % 256) % 256
  let c1 := arg1 < arg2
  let sum := (sum1 + 256 - c) % 256
  let c2 := sum1 < c
  let flags := bset cpu.flags CpuFlag.zero (sum == 0)
  let flags := bset flags CpuFlag.subtraction true
  let flags := bset flags CpuFlag.carry (c1 || c2)
  let ws1 := ((arg1 &&& 0x0f) + 256 - (arg2 &&& 0x0f)) % 256
  let half_carry := (ws1 + 256 - c) % 256 &&& 0x10 > 0
  let flags := bset flags CpuFlag.half_carry half_carry
  ({ cpu with flags := flags }, sum)

/-- Cpu::add_e8: H and C from the unsigned low-byte addition, high byte
adjusted by the carry and the sign of the offset. -/
def add_e8 (cpu : Cpu) (arg1 arg2 : Nat) : Cpu × Nat :=
  let (cpu, lo) := add_u8 cpu (arg1 % 256) arg2 false
  let e8_negative : Bool := arg2 &&& 0x80 > 0
  let hi :=
    match bcontains cpu.flags CpuFlag.carry, e8_negative with
    | false, false => arg1
    | true, false => (arg1 + 0x0100) % 65536
    | false, true => wsub16 arg1 0x0100
    | true, true => arg1
  (cpu, (hi &&& 0xff00) + lo)

/-- Cpu::interrupt_check.  The five request booleans are sampled before any
state change; the trailing handler clears the highest-priority bit and
vectors the PC. -/
def interrupt_check (cpu : Cpu) : Option Cpu :=
  let vblank_interrupt := cpu.bus.vblank_flag && cpu.bus.vblank_enabled
  let lcd_interrupt := cpu.bus.lcd_flag && cpu.bus.lcd_enabled
  let timer_interrupt := cpu.bus.timer_flag && cpu.bus.timer_enabled
  let serial_interrupt := cpu.bus.serial_flag && cpu.bus.serial_enabled
  let joypad_interrupt := cpu.bus.joypad_flag && cpu.bus.joypad_enabled
  let interrupt_pending := vblank_interrupt || lcd_interrupt || timer_interrupt
      || serial_interrupt || joypad_interrupt
  let handler (cpu : Cpu) : Cpu :=
    if vblank_interrupt then
      { cpu with
        bus := { cpu.bus with interrupt_flag := bset cpu.bus.interrupt_flag Interrupt.vblank false },
        program_counter := 0x0040 }
    else if lcd_interrupt then
      { cpu with
        bus := { cpu.bus with interrupt_flag := bset cpu.bus.interrupt_flag Interrupt.lcd false },
        program_counter := 0x0048 }
    else if timer_interrupt then
      { cpu with
        bus := { cpu.bus with interrupt_flag := bset cpu.bus.interrupt_flag Interrupt.timer false },
        program_counter := 0x0050 }
    else if serial_interrupt then
      { cpu with
        bus := { cpu.bus with interrupt_flag := bset cpu.bus.interrupt_flag Interrupt.serial false },
        program_counter := 0x0058 }
    else if joypad_interrupt then
      { cpu with
        bus := { cpu.bus with interrupt_flag := bset cpu.bus.interrupt_flag Interrupt.joypad false },
        program_counter := 0x0060 }
    else cpu
  match cpu.halted, cpu.ime, interrupt_pending with
  | _, _, false => some (handler cpu)
  | false, false, true => some cpu
  | true, true, true =>
    (push_u16_to_stack { cpu with ime := false, halted := false }
        ((cpu.program_counter + 1) % 65536)).map handler
  | false, true, true =>
    (push_u16_to_stack { cpu with ime := false } cpu.program_counter).map handler
  | true, false, true =>
    some { cpu with halted := false,
                    program_counter := (cpu.program_counter + 1) % 65536 }

/-- the condition test shared verbatim by the CALL cc / JP cc / JR cc /
RET cc arms (Cond 0 = NZ, 1 = Z, 2 = NC, 3 = C; anything else panics). -/
def cond_check (cpu : Cpu) (condition : Nat) : Option Bool :=
  match condition with
  | 0 => some (!(bcontains cpu.flags CpuFlag.zero))
  | 1 => some (bcontains cpu.flags CpuFlag.zero)
  | 2 => some (!(bcontains cpu.flags CpuFlag.carry))
  | 3 => some (bcontains cpu.flags CpuFlag.carry)
  | _ => none

/-- Cpu::non_prefixed_opcodes: the dispatch match, one guard per arm in
source order (the arms are pairwise disjoint byte sets). -/
def non_prefixed_opcodes (cpu : Cpu) (byte : Nat) (opcode : Opcode) : Option Cpu :=
  -- ADC A, r8
  if 0x88 ≤ byte ∧ byte ≤ 0x8f then
    match opcode.reg2 with
    | TargetReg.R8 reg =>
      (cpu.r8_read reg).map fun arg =>
        let (cpu, sum) := cpu.add_u8 cpu.a arg true
        { cpu with a := sum }
    | _ => none
  -- ADC A, imm8
  else if byte = 0xce then
    (Bus.mem_read cpu.bus ((cpu.program_counter + 1) % 65536)).map fun arg =>
      let (cpu, sum) := cpu.add_u8 cpu.a arg true
      { cpu with a := sum }
  -- ADD A, r8
  else if 0x80 ≤ byte ∧ byte ≤ 0x87 then
    match opcode.reg2 with
    | TargetReg.R8 reg =>
      (cpu.r8_read reg).map fun arg =>
        let (cpu, sum) := cpu.add_u8 cpu.a arg false
        { cpu with a := sum }
    | _ => none
  -- ADD A, imm8
  else if byte = 0xc6 then
    (Bus.mem_read cpu.bus ((cpu.program_counter + 1) % 65536)).map fun arg =>
      let (cpu, sum) := cpu.add_u8 cpu.a arg false
      { cpu with a := sum }
  -- ADD SP, e8
  else if byte = 0xe8 then
    (Bus.mem_read cpu.bus ((cpu.program_counter + 1) % 65536)).map fun arg =>
      let (cpu, sp) := cpu.add_e8 cpu.stack_pointer arg
      let cpu := { cpu with stack_pointer := sp }
      let cpu := { cpu with flags := bremove cpu.flags CpuFlag.zero }
      { cpu with flags := bremove cpu.flags CpuFlag.subtraction }
  -- ADD HL, r16
  else if byte = 0x09 ∨ byte = 0x19 ∨ byte = 0x29 ∨ byte = 0x39 then
    match opcode.reg2 with
    | TargetReg.R16 reg =>
      (cpu.r16_read reg).map fun arg =>
        let (cpu, sum) := cpu.add_u16 cpu.get_hl arg false
        cpu.set_hl sum
    | _ => none
  -- AND A, r8
  else if 0xa0 ≤ byte ∧ byte ≤ 0xa7 then
    match opcode.reg2 with
    | TargetReg.R8 reg =>
      (cpu.r8_read reg).map fun arg =>
        let cpu := { cpu with a := cpu.a &&& arg }
        let flags := bset cpu.flags CpuFlag.zero (cpu.a == 0)
        let flags := bremove flags CpuFlag.subtraction
        let flags := binsert flags CpuFlag.half_carry
        { cpu with flags := bremove flags CpuFlag.carry }
    | _ => none
  -- AND A, imm8
  else if byte = 0xe6 then
    (Bus.mem_read cpu.bus ((cpu.program_counter + 1) % 65536)).map fun arg =>
      let cpu := { cpu with a := cpu.a &&& arg }
      let flags := bset cpu.flags CpuFlag.zero (cpu.a == 0)
      let flags := bremove flags CpuFlag.subtraction
      let flags := binsert flags CpuFlag.half_carry
      { cpu with flags := bremove flags CpuFlag.carry }
  -- CALL
  else if byte = 0xcd then
    (Bus.mem_read_u16 cpu.bus ((cpu.program_counter + 1) % 65536)).bind fun addr =>
      (cpu.push_u16_to_stack ((cpu.program_counter + 3) % 65536)).map fun cpu =>
        { cpu with program_counter := wsub16 addr 3 }
  -- CALL cc
  else if byte = 0xc4 ∨ byte = 0xcc ∨ byte = 0xd4 ∨ byte = 0xdc then
    match opcode.reg1 with
    | TargetReg.Cond condition =>
      (cond_check cpu condition).bind fun should_execute =>
        if should_execute then
          let cpu := { cpu with cycles := cpu.cycles + 3 }
          (Bus.mem_read_u16 cpu.bus ((cpu.program_counter + 1) % 65536)).bind fun addr =>
            (cpu.push_u16_to_stack ((cpu.program_counter + 3) % 65536)).map fun cpu =>
              { cpu with program_counter := wsub16 addr 3 }
        else some cpu
    | _ => none
  -- CCF
  else if byte = 0x3f then
    let flags := bremove cpu.flags CpuFlag.subtraction
    let flags := bremove flags CpuFlag.half_carry
    some { cpu with flags := btoggle flags CpuFlag.carry }
  -- CP A, r8
  else if 0xb8 ≤ byte ∧ byte ≤ 0xbf then
    match opcode.reg2 with
    | TargetReg.R8 reg =>
      (cpu.r8_read reg).map fun val => (cpu.sub_u8 cpu.a val false).1
    | _ => none
  -- CP A, imm8
  else if byte = 0xfe then
    (Bus.mem_read cpu.bus ((cpu.program_counter + 1) % 65536)).map fun val =>
      (cpu.sub_u8 cpu.a val false).1
  -- CPL
  else if byte = 0x2f then
    let cpu := { cpu with a := cpu.a ^^^ 0xff }
    let flags := binsert cpu.flags CpuFlag.subtraction
    some { cpu with flags := binsert flags CpuFlag.half_carry }
  -- DAA
  else if byte = 0x27 then
    let cpu :=
      if bcontains cpu.flags CpuFlag.subtraction then
        let adjustment :=
          (if bcontains cpu.flags CpuFlag.half_carry then 0x06 else 0)
          + (if bcontains cpu.flags CpuFlag.carry then 0x60 else 0)
        { cpu with a := (cpu.a + 256 - adjustment) % 256 }
      else
        let adjustment :=
          if bcontains cpu.flags CpuFlag.half_carry ∨ cpu.a &&& 0x0f > 0x09
          then 0x06 else 0
        let (adjustment, cpu) :=
          if bcontains cpu.flags CpuFlag.carry ∨ cpu.a > 0x99 then
            (adjustment + 0x60, { cpu with flags := bset cpu.flags CpuFlag.carry true })
          else (adjustment, cpu)
        { cpu with a := (cpu.a + adjustment) % 256 }
    let flags := bset cpu.flags CpuFlag.zero (cpu.a == 0)
    some { cpu with flags := bset flags CpuFlag.half_carry false }
  -- DEC r8
  else if byte = 0x05 ∨ byte = 0x0d ∨ byte = 0x15 ∨ byte = 0x1d ∨ byte = 0x25
      ∨ byte = 0x2d ∨ byte = 0x35 ∨ byte = 0x3d then
    match opcode.reg1 with
    | TargetReg.R8 reg =>
      (cpu.r8_read reg).bind fun val =>
        let half_carry := ((val &&& 0x0f) + 256 - 1) % 256 &&& 0x10 > 0
        let val := (val + 256 - 1) % 256
        (cpu.r8_write reg val).map fun cpu =>
          let flags := bset cpu.flags CpuFlag.zero (val == 0)
          let flags := binsert flags CpuFlag.subtraction
          { cpu with flags := bset flags CpuFlag.half_carry half_carry }
    | _ => none
  -- DEC r16
  else if byte = 0x0b ∨ byte = 0x1b ∨ byte = 0x2b ∨ byte = 0x3b then
    match opcode.reg1 with
    | TargetReg.R16 reg =>
      (cpu.r16_read reg).bind fun val => cpu.r16_write reg (wsub16 val 1)
    | _ => none
  -- DI
  else if byte = 0xf3 then some { cpu with ime := false }
  -- EI
  else if byte = 0xfb then some { cpu with ime := true }
  -- HALT
  else if byte = 0x76 then some { cpu with halted := true }
  -- INC r8
  else if byte = 0x04 ∨ byte = 0x0c ∨ byte = 0x14 ∨ byte = 0x1c ∨ byte = 0x24
      ∨ byte = 0x2c ∨ byte = 0x34 ∨ byte = 0x3c then
    match opcode.reg1 with
    | TargetReg.R8 reg =>
      (cpu.r8_read reg).bind fun val =>
        let half_carry := val &&& 0x0f == 0x0f
        let val := (val + 1) % 256
        (cpu.r8_write reg val).map fun cpu =>
          let flags := bset cpu.flags CpuFlag.zero (val == 0)
          let flags := bremove flags CpuFlag.subtraction
          { cpu with flags := bset flags CpuFlag.half_carry half_carry }
    | _ => none
  -- INC r16
  else if byte = 0x03 ∨ byte = 0x13 ∨ byte = 0x23 ∨ byte = 0x33 then
    match opcode.reg1 with
    | TargetReg.R16 reg =>
      (cpu.r16_read reg).bind fun val => cpu.r16_write reg ((val + 1) % 65536)
    | _ => none
  -- JP
  else if byte = 0xc3 then
    (Bus.mem_read_u16 cpu.bus ((cpu.program_counter + 1) % 65536)).map fun addr =>
      { cpu with program_counter := wsub16 addr 3 }
  -- JP HL
  else if byte = 0xe9 then
    some { cpu with program_counter := wsub16 cpu.get_hl 1 }
  -- JP cc
  else if byte = 0xc2 ∨ byte = 0xca ∨ byte = 0xd2 ∨ byte = 0xda then
    match opcode.reg1 with
    | TargetReg.Cond condition =>
      (cond_check cpu condition).bind fun should_execute =>
        if should_execute then
          let cpu := { cpu with cycles := cpu.cycles + 1 }
          (Bus.mem_read_u16 cpu.bus ((cpu.program_counter + 1) % 65536)).map fun addr =>
            { cpu with program_counter := wsub16 addr 3 }
        else some cpu
    | _ => none
  -- JR imm8
  else if byte = 0x18 then
    (Bus.mem_read cpu.bus ((cpu.program_counter + 1) % 65536)).map fun offset =>
      { cpu with program_counter := waddSigned8 cpu.program_counter offset }
  -- JR cc, imm8
  else if byte = 0x20 ∨ byte = 0x28 ∨ byte = 0x30 ∨ byte = 0x38 then
    (Bus.mem_read cpu.bus ((cpu.program_counter + 1) % 65536)).bind fun offset =>
      match opcode.reg1 with
      | TargetReg.Cond condition =>
        (cond_check cpu condition).map fun should_execute =>
          if should_execute then
            let cpu := { cpu with cycles := cpu.cycles + 1 }
            { cpu with program_counter := waddSigned8 cpu.program_counter offset }
          else cpu
      | _ => none
  -- LD r8, r8
  else if (0x40 ≤ byte ∧ byte ≤ 0x75) ∨ (0x77 ≤ byte ∧ byte ≤ 0x7f) then
    match opcode.reg2 with
    | TargetReg.R8 reg2 =>
      (cpu.r8_read reg2).bind fun val =>
        match opcode.reg1 with
        | TargetReg.R8 reg1 => cpu.r8_write reg1 val
        | _ => none
    | _ => none
  -- LD r16, imm16
  else if byte = 0x01 ∨ byte = 0x11 ∨ byte = 0x21 ∨ byte = 0x31 then
    (Bus.mem_read_u16 cpu.bus ((cpu.program_counter + 1) % 65536)).bind fun val =>
      match opcode.reg1 with
      | TargetReg.R16 reg => cpu.r16_write reg val
      | _ => none
  -- LD A, imm16
  else if byte = 0xfa then
    (Bus.mem_read_u16 cpu.bus ((cpu.program_counter + 1) % 65536)).bind fun addr =>
      (Bus.mem_read cpu.bus addr).map fun val => { cpu with a := val }
  -- LD imm16, A
  else if byte = 0xea then
    (Bus.mem_read_u16 cpu.bus ((cpu.program_counter + 1) % 65536)).bind fun addr =>
      (Bus.mem_write cpu.bus addr cpu.a).map fun bus => { cpu with bus := bus }
  -- LD imm16, SP
  else if byte = 0x08 then
    (Bus.mem_read_u16 cpu.bus ((cpu.program_counter + 1) % 65536)).bind fun addr =>
      (Bus.mem_write_u16 cpu.bus addr cpu.stack_pointer).map fun bus =>
        { cpu with bus := bus }
  -- LD SP, HL
  else if byte = 0xf9 then
    some { cpu with stack_pointer := cpu.get_hl }
  -- LD r16mem, A
  else if byte = 0x02 ∨ byte = 0x12 ∨ byte = 0x22 ∨ byte = 0x32 then
    match opcode.reg1 with
    | TargetReg.R16mem reg => cpu.r16mem_write reg cpu.a
    | _ => none
  -- LD A, r16mem
  else if byte = 0x0a ∨ byte = 0x1a ∨ byte = 0x2a ∨ byte = 0x3a then
    match opcode.reg2 with
    | TargetReg.R16mem reg =>
      (cpu.r16mem_read reg).map fun p => { p.1 with a := p.2 }
    | _ => none
  -- LD r8, imm8
  else if byte = 0x06 ∨ byte = 0x0e ∨ byte = 0x16 ∨ byte = 0x1e ∨ byte = 0x26
      ∨ byte = 0x2e ∨ byte = 0x36 ∨ byte = 0x3e then
    (Bus.mem_read cpu.bus ((cpu.program_counter + 1) % 65536)).bind fun val =>
      match opcode.reg1 with
      | TargetReg.R8 reg => cpu.r8_write reg val
      | _ => none
  -- ld hl, sp + imm8
  else if byte = 0xf8 then
    (Bus.mem_read cpu.bus ((cpu.program_counter + 1) % 65536)).map fun offset =>
      let (cpu, sum) := cpu.add_e8 cpu.stack_pointer offset
      let cpu := cpu.set_hl sum
      let flags := bset cpu.flags CpuFlag.zero false
      { cpu with flags := bset flags CpuFlag.subtraction false }
  -- LDH [C], A
  else if byte = 0xe2 then
    (Bus.mem_write cpu.bus (0xff00 + cpu.c) cpu.a).map fun bus => { cpu with bus := bus }
  -- LDH A, [C]
  else if byte = 0xf2 then
    (Bus.mem_read cpu.bus (0xff00 + cpu.c)).map fun val => { cpu with a := val }
  -- LDH imm8, A
  else if byte = 0xe0 then
    (Bus.mem_read cpu.bus ((cpu.program_counter + 1) % 65536)).bind fun addr_lo =>
      (Bus.mem_write cpu.bus (0xff00 + (addr_lo &&& 0x00ff)) cpu.a).map fun bus =>
        { cpu with bus := bus }
  -- LDH A, imm8
  else if byte = 0xf0 then
    (Bus.mem_read cpu.bus ((cpu.program_counter + 1) % 65536)).bind fun addr_lo =>
      (Bus.mem_read cpu.bus (0xff00 + (addr_lo &&& 0x00ff))).map fun val =>
        { cpu with a := val }
  -- NOP
  else if byte = 0x00 then some cpu
  -- OR A, r8
  else if 0xb0 ≤ byte ∧ byte ≤ 0xb7 then
    match opcode.reg2 with
    | TargetReg.R8 reg =>
      (cpu.r8_read reg).map fun val =>
        let cpu := { cpu with a := cpu.a ||| val }
        let flags := bset cpu.flags CpuFlag.zero (cpu.a == 0)
        let flags := bremove flags CpuFlag.subtraction
        let flags := bremove flags CpuFlag.half_carry
        { cpu with flags := bremove flags CpuFlag.carry }
    | _ => none
  -- OR A, imm8 (the source updates no flags here)
  else if byte = 0xf6 then
    (Bus.mem_read cpu.bus ((cpu.program_counter + 1) % 65536)).map fun val =>
      { cpu with a := cpu.a ||| val }
  -- POP r16stk
  else if byte = 0xc1 ∨ byte = 0xd1 ∨ byte = 0xe1 then
    (cpu.pop_u16_from_stack).bind fun p =>
      match opcode.reg1 with
      | TargetReg.R16stk reg => p.1.r16stk_write reg p.2
      | _ => none
  -- POP AF
  else if byte = 0xf1 then
    (cpu.pop_u16_from_stack).map fun p => p.1.set_af (p.2 &&& 0xfff0)
  -- PUSH
  else if byte = 0xc5 ∨ byte = 0xd5 ∨ byte = 0xe5 ∨ byte = 0xf5 then
    match opcode.reg1 with
    | TargetReg.R16stk reg =>
      (cpu.r16stk_read reg).bind fun val => cpu.push_u16_to_stack val
    | _ => none
  -- RET
  else if byte = 0xc9 then
    (cpu.pop_u16_from_stack).map fun p =>
      { p.1 with program_counter := wsub16 p.2 1 }
  -- RET cc
  else if byte = 0xc0 ∨ byte = 0xc8 ∨ byte = 0xd0 ∨ byte = 0xd8 then
    match opcode.reg1 with
    | TargetReg.Cond condition =>
      (cond_check cpu condition).bind fun should_execute =>
        if should_execute then
          let cpu := { cpu with cycles := cpu.cycles + 3 }
          (cpu.pop_u16_from_stack).map fun p =>
            { p.1 with program_counter := wsub16 p.2 1 }
        else some cpu
    | _ => none
  -- RETI
  else if byte = 0xd9 then
    (cpu.pop_u16_from_stack).map fun p =>
      { p.1 with program_counter := wsub16 p.2 1, ime := true }
  -- RLA
  else if byte = 0x17 then
    let left_bit_set := cpu.a &&& 0x80 ≠ 0
    let cpu := { cpu with a := (cpu.a <<< 1) % 256 }
    let cpu := { cpu with a := cpu.a + (if bcontains cpu.flags CpuFlag.carry then 1 else 0) }
    let flags := bremove cpu.flags CpuFlag.zero
    let flags := bremove flags CpuFlag.subtraction
    let flags := bremove flags CpuFlag.half_carry
    some { cpu with flags := bset flags CpuFlag.carry left_bit_set }
  -- RLCA
  else if byte = 0x07 then
    let left_bit_set := cpu.a &&& 0x80 ≠ 0
    let cpu := { cpu with a := (cpu.a <<< 1) % 256 }
    let cpu := { cpu with a := cpu.a + (if left_bit_set then 1 else 0) }
    let flags := bremove cpu.flags CpuFlag.zero
    let flags := bremove flags CpuFlag.subtraction
    let flags := bremove flags CpuFlag.half_carry
    some { cpu with flags := bset flags CpuFlag.carry left_bit_set }
  -- RRA
  else if byte = 0x1f then
    let right_bit_set := cpu.a &&& 0x01 > 0
    let cpu := { cpu with a := cpu.a >>> 1 }
    let cpu := { cpu with a := cpu.a + ((if bcontains cpu.flags CpuFlag.carry then 1 else 0) <<< 7) }
    let flags := bremove cpu.flags CpuFlag.zero
    let flags := bremove flags CpuFlag.subtraction
    let flags := bremove flags CpuFlag.half_carry
    some { cpu with flags := bset flags CpuFlag.carry right_bit_set }
  -- RRCA
  else if byte = 0x0f then
    let right_bit_set := cpu.a &&& 0x01 ≠ 0
    let cpu := { cpu with a := cpu.a >>> 1 }
    let cpu := { cpu with a := cpu.a + ((if right_bit_set then 1 else 0) <<< 7) }
    let flags := bremove cpu.flags CpuFlag.zero
    let flags := bremove flags CpuFlag.subtraction
    let flags := bremove flags CpuFlag.half_carry
    some { cpu with flags := bset flags CpuFlag.carry right_bit_set }
  -- RST
  else if byte = 0xc7 ∨ byte = 0xcf ∨ byte = 0xd7 ∨ byte = 0xdf ∨ byte = 0xe7
      ∨ byte = 0xef ∨ byte = 0xf7 ∨ byte = 0xff then
    match opcode.reg1 with
    | TargetReg.Tgt3 tgt =>
      (tgt3_read tgt).bind fun addr =>
        (cpu.push_u16_to_stack ((cpu.program_counter + 1) % 65536)).map fun cpu =>
          { cpu with program_counter := wsub16 addr 1 }
    | _ => none
  -- SBC A, r8
  else if 0x98 ≤ byte ∧ byte ≤ 0x9f then
    match opcode.reg2 with
    | TargetReg.R8 reg =>
      (cpu.r8_read reg).map fun val =>
        let (cpu, res) := cpu.sub_u8 cpu.a val true
        { cpu with a := res }
    | _ => none
  -- SBC A, imm8
  else if byte = 0xde then
    (Bus.mem_read cpu.bus ((cpu.program_counter + 1) % 65536)).map fun val =>
      let (cpu, res) := cpu.sub_u8 cpu.a val true
      { cpu with a := res }
  -- SCF
  else if byte = 0x37 then
    let flags := bremove cpu.flags CpuFlag.subtraction
    let flags := bremove flags CpuFlag.half_carry
    some { cpu with flags := bset flags CpuFlag.carry true }
  -- STOP
  else if byte = 0x10 then some cpu
  -- SUB A, r8
  else if 0x90 ≤ byte ∧ byte ≤ 0x97 then
    match opcode.reg2 with
    | TargetReg.R8 reg =>
      (cpu.r8_read reg).map fun val =>
        let (cpu, res) := cpu.sub_u8 cpu.a val false
        { cpu with a := res }
    | _ => none
  -- SUB A, imm8
  else if byte = 0xd6 then
    (Bus.mem_read cpu.bus ((cpu.program_counter + 1) % 65536)).map fun val =>
      let (cpu, res) := cpu.sub_u8 cpu.a val false
      { cpu with a := res }
  -- XOR A, r8
  else if 0xa8 ≤ byte ∧ byte ≤ 0xaf then
    match opcode.reg2 with
    | TargetReg.R8 reg =>
      (cpu.r8_read reg).map fun val =>
        let cpu := { cpu with a := cpu.a ^^^ val }
        let flags := bset cpu.flags CpuFlag.zero (cpu.a == 0)
        let flags := bset flags CpuFlag.subtraction false
        let flags := bset flags CpuFlag.carry false
        { cpu with flags := bset flags CpuFlag.half_carry false }
    | _ => none
  -- XOR A, imm8
  else if byte = 0xee then
    (Bus.mem_read cpu.bus ((cpu.program_counter + 1) % 65536)).map fun val =>
      let cpu := { cpu with a := cpu.a ^^^ val }
      let flags := bset cpu.flags CpuFlag.zero (cpu.a == 0)
      let flags := bset flags CpuFlag.subtraction false
      let flags := bset flags CpuFlag.carry false
      { cpu with flags := bset flags CpuFlag.half_carry false }
  -- Prefixed
  else if byte = 0xcb then some { cpu with prefixed_mode := true }
  else none

/-- Cpu::step (with the identity callback, as in Cpu::run).  Returns the
stepped CPU together with the cycle count passed to `Bus::tick` (the
observable time budget; the Rust function stores its side effects in the
CPU and returns a borrow of the finished frame instead).  The prefixed
branch is a panic because `CPU_PREFIXED_OP_CODES` is absent from the
sources (see the header note); opcode `0xCB` panics at the table lookup
before it could ever set `prefixed_mode`. -/
def step (cpu0 : Cpu) : Option (Cpu × Nat) :=
  (interrupt_check cpu0).bind fun cpu =>
    if cpu.prefixed_mode then none
    else
      (Bus.mem_read cpu.bus cpu.program_counter).bind fun opcode_num =>
        match hashGet CPU_OP_CODES opcode_num with
        | Option.none => none
        | some opcode =>
          (non_prefixed_opcodes cpu opcode_num opcode).map fun cpu =>
            let ticked := opcode.cycles + cpu.cycles
            let (bus, frame_ready) := Bus.tick cpu.bus ticked
            ({ cpu with
                bus := bus, frame_ready := frame_ready, cycles := 0,
                program_counter := (cpu.program_counter + opcode.bytes) % 65536 },
             ticked)

end Cpu

/-! ## fixtures for concrete evaluations -/

/-- a flat cartridge whose ROM holds the given program at address 0. -/
def romCart (prog : List Nat) : Cart :=
  { cartridge_rom := fun a => prog.getD a 0, cartridge_ram := fun _ => 0 }

def flatCart : Cart := romCart []

def baseBus : Bus := Bus.new flatCart

/-- HALT at 0, INC A at 1; the CPU is already halted with PC = 1, A = 5 and
no pending interrupt. -/
def haltedCpu : Cpu :=
  { Cpu.new (Bus.new (romCart [0x76, 0x3c])) with
      program_counter := 1, halted := true, a := 5 }

/-- work RAM with a marker byte at C000 (used on the echo-RAM claim). -/
def echoBus : Bus :=
  { baseBus with cpu_ram := fun i => if i = 0 then 7 else 0 }

/-- five 100-cycle PPU ticks from reset, all with LCD-control bit 7 = 0. -/
def lcdOffPpu : Ppu :=
  (List.replicate 5 100).foldl (fun p c => (Ppu.tick p c).1) Ppu.new

/-- program `LD HL, SP+e8` with e8 = 0x02, run with SP = 0xFFF8. -/
def ldhlCpuA : Cpu :=
  { Cpu.new (Bus.new (romCart [0xf8, 0x02])) with
      program_counter := 0, stack_pointer := 0xFFF8 }

/-- program `LD HL, SP+e8` with e8 = 0xFF, run with SP = 0xFF00. -/
def ldhlCpuB : Cpu :=
  { Cpu.new (Bus.new (romCart [0xf8, 0xff])) with
      program_counter := 0, stack_pointer := 0xFF00 }

/-- 64 one-M-cycle bus ticks from power-on. -/
def divBus64 : Bus :=
  (List.replicate 64 1).foldl (fun b c => (Bus.tick b c).1) baseBus

/-- an APU state one tick short of a frame-sequencer advance. -/
def apuNear : Apu := { Apu.new with frame_seq_cycles := 2046 }

/-! ## claims -/

/-- C1.  The claim says that while halted (with no interrupt pending) a
`step` returns one M-cycle, performs no fetch, and leaves registers, PC and
memory unchanged.  `Cpu::step` never consults `halted`: from the halted
state `haltedCpu` (no pending interrupt, PC = 1, A = 5, INC A at address 1)
the step fetches and executes the INC A, changing A to 6 and advancing PC
to 2, while `halted` stays true. -/
theorem C1_code_bug_step_executes_while_halted :
    (Cpu.step haltedCpu).map
        (fun p => (p.1.a, p.1.program_counter, p.1.halted, p.2))
      = some (6, 2, true, 1) := by
  rfl

/-- C3 counterexample.  The claim says reads in E000–FDFF return the
mirrored work-RAM byte and never raise an error: on `echoBus` the mirror
cell C000 (= E000 − 2000) holds 7, yet `mem_read` panics (`none`) instead
of returning it, and `mem_write` panics as well. -/
theorem C3_counterexample_echo_ram_panics :
    echoBus.cpu_ram ((0xE000 - 0x2000) % 0x2000) = 7 ∧
    Bus.mem_read echoBus 0xE000 = Option.none ∧
    Bus.mem_write echoBus 0xE000 0x42 = Option.none := by
  exact ⟨rfl, rfl, rfl⟩

/-- C3 as amended.  Every access in E000–FDFF panics ("Echo RAM address
used", with the address in the message); the range is not mirrored. -/
theorem C3_amended_echo_ram_aborts (b : Bus) (a v : Nat)
    (h1 : 0xE000 ≤ a) (h2 : a ≤ 0xFDFF) :
    Bus.mem_read b a = Option.none ∧ Bus.mem_write b a v = Option.none := by
  constructor
  · unfold Bus.mem_read
    rw [if_neg (by omega), if_neg (by omega), if_neg (by omega),
        if_neg (by omega), if_neg (by omega), if_pos (by omega)]
  · unfold Bus.mem_write
    rw [if_neg (by omega), if_neg (by omega), if_neg (by omega),
        if_neg (by omega), if_neg (by omega), if_pos (by omega)]

/-- C3 amended, witness at a = E000. -/
theorem C3_amended_echo_ram_aborts_witness :
    Bus.mem_read baseBus 0xE000 = Option.none ∧
    Bus.mem_write baseBus 0xE000 0x42 = Option.none :=
  C3_amended_echo_ram_aborts baseBus 0xE000 0x42 (by decide) (by decide)

/-- C4 counterexample.  The claim says every state reachable while LCD
control bit 7 is 0 has LY = 0 (with mode HBlank and no PPU interrupts).
From reset (control = 0, so the LCD is disabled) five 100-cycle ticks reach
`lcdOffPpu`, still with bit 7 = 0 but with LY = 1: the PPU clock is not
halted while the LCD is off. -/
theorem C4_counterexample_ly_advances_while_disabled :
    bcontains Ppu.new.control Control.lcd_enable = false ∧
    bcontains lcdOffPpu.control Control.lcd_enable = false ∧
    lcdOffPpu.scanline = 1 := by
  exact ⟨rfl, rfl, rfl⟩

set_option maxRecDepth 4000 in
/-- C5.  The claim (and the spec) names eleven missing unprefixed opcodes;
the table actually lacks thirteen: 0xCB (the prefix byte, so prefixed mode
is unreachable) and 0xE9 (JP HL — the `// jp hl` insert in opcodes.rs uses
key 0xd9 by mistake, and the later RETI insert overwrites it) panic at the
table lookup as well, and the panic message carries only the opcode, not
the address. -/
theorem C5_code_bug_opcode_table_missing_set :
    (List.range 256).filter (fun b => (hashGet CPU_OP_CODES b).isNone)
      = [0xcb, 0xd3, 0xdb, 0xdd, 0xe3, 0xe4, 0xe9, 0xeb, 0xec, 0xed,
         0xf4, 0xfc, 0xfd] := by
  rfl

/-- C6 counterexample.  With SP = FF00 and e8 = FF the claim expects
H = 1 and C = 1; the low-byte unsigned addition 0x00 + 0xFF = 0xFF produces
neither a half-carry nor a carry, and executing the instruction indeed
leaves H = 0 and C = 0 (HL = FEFF as claimed). -/
theorem C6_counterexample_ld_hl_sp_e8_flags :
    (Cpu.step ldhlCpuB).map (fun p =>
        (p.1.get_hl, bcontains p.1.flags CpuFlag.half_carry,
         bcontains p.1.flags CpuFlag.carry))
      = some (0xFEFF, false, false) := by
  rfl

/-- C6 as amended.  `LD HL, SP+e8` with SP = FFF8, e8 = 02 gives HL = FFFA
and flag byte 0 (Z = N = H = C = 0); with SP = FF00, e8 = FF it gives
HL = FEFF and again flag byte 0, because the unsigned low-byte addition
0x00 + 0xFF carries out of neither bit 3 nor bit 7. -/
theorem C6_amended_ld_hl_sp_e8 :
    (Cpu.step ldhlCpuA).map (fun p => (p.1.get_hl, p.1.flags))
        = some (0xFFFA, 0) ∧
    (Cpu.step ldhlCpuB).map (fun p => (p.1.get_hl, p.1.flags))
        = some (0xFEFF, 0) := by
  exact ⟨rfl, rfl⟩

set_option maxRecDepth 8000 in
/-- C7 counterexample.  The claim gives DIV a period of 256 M-cycles; after
only 64 one-M-cycle bus ticks from power-on, the DIV register read at FF04
has already incremented to 1. -/
theorem C7_counterexample_div_increments_after_64 :
    Bus.mem_read divBus64 0xFF04 = some 1 := by
  rfl

/-- writes into C000–DFFF land in work RAM at the mirrored offset. -/
theorem mem_write_wram (b : Bus) (a v : Nat)
    (h1 : 0xC000 ≤ a) (h2 : a ≤ 0xDFFF) :
    Bus.mem_write b a v =
      some { b with cpu_ram := fun i => if i = a % 0x2000 then v else b.cpu_ram i } := by
  unfold Bus.mem_write
  rw [if_neg (by omega), if_neg (by omega), if_neg (by omega),
      if_neg (by omega), if_pos (by omega)]

/-- a byte push with the stack inside work RAM. -/
theorem push_u8_wram (cpu : Cpu) (v : Nat)
    (h1 : 0xC001 ≤ cpu.stack_pointer) (h2 : cpu.stack_pointer ≤ 0xE000) :
    Cpu.push_u8_to_stack cpu v = some
      { cpu with
        stack_pointer := cpu.stack_pointer - 1,
        bus := { cpu.bus with cpu_ram := fun i =>
          if i = (cpu.stack_pointer - 1) % 0x2000 then v
          else cpu.bus.cpu_ram i } } := by
  unfold Cpu.push_u8_to_stack
  have e1 : wsub16 cpu.stack_pointer 1 = cpu.stack_pointer - 1 := by
    unfold wsub16; omega
  rw [e1, mem_write_wram _ _ _ (by omega) (by omega)]
  rfl

/-- a 16-bit push with the stack inside work RAM: SP drops by 2, the high
byte lands at SP minus 1 and the low byte at SP minus 2. -/
theorem push_u16_wram (cpu : Cpu) (val : Nat)
    (h1 : 0xC002 ≤ cpu.stack_pointer) (h2 : cpu.stack_pointer ≤ 0xE000) :
    Cpu.push_u16_to_stack cpu val = some
      { cpu with
        stack_pointer := cpu.stack_pointer - 2,
        bus := { cpu.bus with cpu_ram := fun i =>
          if i = (cpu.stack_pointer - 2) % 0x2000 then val % 256
          else if i = (cpu.stack_pointer - 1) % 0x2000 then (val / 256) % 256
          else cpu.bus.cpu_ram i } } := by
  unfold Cpu.push_u16_to_stack
  rw [push_u8_wram _ _ (by omega) (by omega)]
  simp only [Option.some_bind]
  rw [push_u8_wram _ _ (show 0xC001 ≤ cpu.stack_pointer - 1 by omega)
      (show cpu.stack_pointer - 1 ≤ 0xE000 by omega)]
  rfl

/-- Cpu::interrupt_check in the not-halted, IME-on case with bit `k` the
highest-priority interrupt pending in both IF and IE, and a work-RAM
stack: IME drops, PC is pushed (hi at SP−1, lo at SP−2), PC is vectored to
0x40 + 8k, and bit k of IF is cleared. -/
theorem interrupt_dispatch (cpu : Cpu) (k : Nat) (hk : k < 5)
    (hhalt : cpu.halted = false) (hime : cpu.ime = true)
    (hflag : bcontains cpu.bus.interrupt_flag (1 <<< k) = true)
    (henab : bcontains cpu.bus.interrupt_enable (1 <<< k) = true)
    (hhigh : ∀ j, j < k → bcontains cpu.bus.interrupt_flag (1 <<< j) = false
        ∨ bcontains cpu.bus.interrupt_enable (1 <<< j) = false)
    (hsp1 : 0xC002 ≤ cpu.stack_pointer) (hsp2 : cpu.stack_pointer ≤ 0xE000) :
    Cpu.interrupt_check cpu = some
      { cpu with
        ime := false,
        stack_pointer := cpu.stack_pointer - 2,
        program_counter := 0x40 + 8 * k,
        bus := { cpu.bus with
          interrupt_flag := cpu.bus.interrupt_flag &&& ((1 <<< k) ^^^ 0xff),
          cpu_ram := fun i =>
            if i = (cpu.stack_pointer - 2) % 0x2000 then cpu.program_counter % 256
            else if i = (cpu.stack_pointer - 1) % 0x2000 then
              (cpu.program_counter / 256) % 256
            else cpu.bus.cpu_ram i } } := by
  have hlow : ∀ j, j < k →
      (bcontains cpu.bus.interrupt_flag (1 <<< j)
        && bcontains cpu.bus.interrupt_enable (1 <<< j)) = false := by
    intro j hj
    rcases hhigh j hj with h | h <;> simp [h]
  have hcur : (bcontains cpu.bus.interrupt_flag (1 <<< k)
      && bcontains cpu.bus.interrupt_enable (1 <<< k)) = true := by
    simp [hflag, henab]
  have hpush := push_u16_wram { cpu with ime := false } cpu.program_counter
    (by exact hsp1) (by exact hsp2)
  simp only [hhalt] at hpush
  unfold Cpu.interrupt_check
  simp only [Bus.vblank_flag, Bus.vblank_enabled, Bus.lcd_flag, Bus.lcd_enabled,
    Bus.timer_flag, Bus.timer_enabled, Bus.serial_flag, Bus.serial_enabled,
    Bus.joypad_flag, Bus.joypad_enabled, hhalt, hime]
  interval_cases k
  · have e0 := hcur
    simp only [show (1 <<< 0 : Nat) = Interrupt.vblank from rfl] at e0
    simp only [e0, Bool.true_or, ↓reduceIte]
    rw [hpush, Option.map_some']
    rfl
  · have e0 := hlow 0 (by omega)
    have e1 := hcur
    simp only [show (1 <<< 0 : Nat) = Interrupt.vblank from rfl] at e0
    simp only [show (1 <<< 1 : Nat) = Interrupt.lcd from rfl] at e1
    simp only [e0, e1, Bool.false_or, Bool.true_or, Bool.false_eq_true, ↓reduceIte]
    rw [hpush, Option.map_some']
    rfl
  · have e0 := hlow 0 (by omega)
    have e1 := hlow 1 (by omega)
    have e2 := hcur
    simp only [show (1 <<< 0 : Nat) = Interrupt.vblank from rfl] at e0
    simp only [show (1 <<< 1 : Nat) = Interrupt.lcd from rfl] at e1
    simp only [show (1 <<< 2 : Nat) = Interrupt.timer from rfl] at e2
    simp only [e0, e1, e2, Bool.false_or, Bool.true_or, Bool.false_eq_true, ↓reduceIte]
    rw [hpush, Option.map_some']
    rfl
  · have e0 := hlow 0 (by omega)
    have e1 := hlow 1 (by omega)
    have e2 := hlow 2 (by omega)
    have e3 := hcur
    simp only [show (1 <<< 0 : Nat) = Interrupt.vblank from rfl] at e0
    simp only [show (1 <<< 1 : Nat) = Interrupt.lcd from rfl] at e1
    simp only [show (1 <<< 2 : Nat) = Interrupt.timer from rfl] at e2
    simp only [show (1 <<< 3 : Nat) = Interrupt.serial from rfl] at e3
    simp only [e0, e1, e2, e3, Bool.false_or, Bool.true_or, Bool.false_eq_true, ↓reduceIte]
    rw [hpush, Option.map_some']
    rfl
  · have e0 := hlow 0 (by omega)
    have e1 := hlow 1 (by omega)
    have e2 := hlow 2 (by omega)
    have e3 := hlow 3 (by omega)
    have e4 := hcur
    simp only [show (1 <<< 0 : Nat) = Interrupt.vblank from rfl] at e0
    simp only [show (1 <<< 1 : Nat) = Interrupt.lcd from rfl] at e1
    simp only [show (1 <<< 2 : Nat) = Interrupt.timer from rfl] at e2
    simp only [show (1 <<< 3 : Nat) = Interrupt.serial from rfl] at e3
    simp only [show (1 <<< 4 : Nat) = Interrupt.joypad from rfl] at e4
    simp only [e0, e1, e2, e3, e4, Bool.false_or, Bool.true_or, Bool.false_eq_true, ↓reduceIte]
    rw [hpush, Option.map_some']
    rfl

/-- C2.  With the CPU not halted, IME set, and bit k the highest-priority
interrupt bit set in both IF and IE (stack in work RAM, IF a byte), the
pre-fetch interrupt check clears IME, pushes PC (SP drops by 2, hi byte at
SP−1, lo byte at SP−2), vectors PC to 0x40 + 8k (0x40 VBlank, 0x48 LCD,
0x50 Timer, 0x58 Serial, 0x60 Joypad), and clears exactly bit k of IF. -/
theorem C2_interrupt_dispatch_effects (cpu : Cpu) (k : Nat) (hk : k < 5)
    (hhalt : cpu.halted = false) (hime : cpu.ime = true)
    (hflag : bcontains cpu.bus.interrupt_flag (1 <<< k) = true)
    (henab : bcontains cpu.bus.interrupt_enable (1 <<< k) = true)
    (hhigh : ∀ j, j < k → bcontains cpu.bus.interrupt_flag (1 <<< j) = false
        ∨ bcontains cpu.bus.interrupt_enable (1 <<< j) = false)
    (hsp1 : 0xC002 ≤ cpu.stack_pointer) (hsp2 : cpu.stack_pointer ≤ 0xE000)
    (hbyte : cpu.bus.interrupt_flag < 256) :
    ∃ cpu2, Cpu.interrupt_check cpu = some cpu2 ∧
      cpu2.ime = false ∧
      cpu2.stack_pointer = cpu.stack_pointer - 2 ∧
      cpu2.bus.cpu_ram ((cpu.stack_pointer - 1) % 0x2000)
          = (cpu.program_counter / 256) % 256 ∧
      cpu2.bus.cpu_ram ((cpu.stack_pointer - 2) % 0x2000)
          = cpu.program_counter % 256 ∧
      cpu2.program_counter = 0x40 + 8 * k ∧
      cpu2.bus.interrupt_flag.testBit k = false ∧
      (∀ j, j ≠ k →
        cpu2.bus.interrupt_flag.testBit j = cpu.bus.interrupt_flag.testBit j) := by
  refine ⟨_, interrupt_dispatch cpu k hk hhalt hime hflag henab hhigh hsp1 hsp2,
    rfl, rfl, ?_, ?_, rfl, ?_, ?_⟩
  · show (if (cpu.stack_pointer - 1) % 0x2000 = (cpu.stack_pointer - 2) % 0x2000
        then cpu.program_counter % 256
        else if (cpu.stack_pointer - 1) % 0x2000 = (cpu.stack_pointer - 1) % 0x2000
        then (cpu.program_counter / 256) % 256
        else cpu.bus.cpu_ram ((cpu.stack_pointer - 1) % 0x2000))
      = (cpu.program_counter / 256) % 256
    rw [if_neg (by omega), if_pos rfl]
  · show (if (cpu.stack_pointer - 2) % 0x2000 = (cpu.stack_pointer - 2) % 0x2000
        then cpu.program_counter % 256
        else if (cpu.stack_pointer - 2) % 0x2000 = (cpu.stack_pointer - 1) % 0x2000
        then (cpu.program_counter / 256) % 256
        else cpu.bus.cpu_ram ((cpu.stack_pointer - 2) % 0x2000))
      = cpu.program_counter % 256
    rw [if_pos rfl]
  · show (cpu.bus.interrupt_flag &&& ((1 <<< k) ^^^ 0xff)).testBit k = false
    have h8 : k < 8 := by omega
    rw [Nat.testBit_and, Nat.testBit_xor, Nat.one_shiftLeft,
        Nat.testBit_two_pow_self,
        show (0xff : Nat) = 2 ^ 8 - 1 from rfl, Nat.testBit_two_pow_sub_one,
        decide_eq_true h8]
    simp
  · intro j hj
    show (cpu.bus.interrupt_flag &&& ((1 <<< k) ^^^ 0xff)).testBit j
        = cpu.bus.interrupt_flag.testBit j
    rw [Nat.testBit_and, Nat.testBit_xor, Nat.one_shiftLeft,
        show (0xff : Nat) = 2 ^ 8 - 1 from rfl, Nat.testBit_two_pow_sub_one,
        Nat.testBit_two_pow_of_ne (fun h => hj h.symm)]
    rcases Nat.lt_or_ge j 8 with hj8 | hj8
    · rw [decide_eq_true hj8]
      simp
    · have hz : cpu.bus.interrupt_flag.testBit j = false := by
        apply Nat.testBit_lt_two_pow
        calc cpu.bus.interrupt_flag < 256 := hbyte
          _ = 2 ^ 8 := rfl
          _ ≤ 2 ^ j := Nat.pow_le_pow_right (by omega) hj8
      rw [decide_eq_false (by omega), hz]
      simp

/-- demo state for the C2 witness: timer interrupt (bit 2) set in both IF
and IE, lower-priority bits clear, stack at D000. -/
def c2DemoCpu : Cpu :=
  { Cpu.new { baseBus with interrupt_enable := 0x04, interrupt_flag := 0x04 } with
      ime := true, stack_pointer := 0xD000, program_counter := 0x1234 }

/-- C2 witness at the timer interrupt (k = 2). -/
theorem C2_interrupt_dispatch_effects_witness :
    ∃ cpu2, Cpu.interrupt_check c2DemoCpu = some cpu2 ∧
      cpu2.ime = false ∧
      cpu2.stack_pointer = c2DemoCpu.stack_pointer - 2 ∧
      cpu2.bus.cpu_ram ((c2DemoCpu.stack_pointer - 1) % 0x2000)
          = (c2DemoCpu.program_counter / 256) % 256 ∧
      cpu2.bus.cpu_ram ((c2DemoCpu.stack_pointer - 2) % 0x2000)
          = c2DemoCpu.program_counter % 256 ∧
      cpu2.program_counter = 0x40 + 8 * 2 ∧
      cpu2.bus.interrupt_flag.testBit 2 = false ∧
      (∀ j, j ≠ 2 →
        cpu2.bus.interrupt_flag.testBit j = c2DemoCpu.bus.interrupt_flag.testBit j) :=
  C2_interrupt_dispatch_effects c2DemoCpu 2 (by decide) rfl rfl (by decide)
    (by decide) (by decide) (by decide) (by decide) (by decide)

/-- reads below 0x4000 come from cartridge ROM bank 0. -/
theorem mem_read_rom0 (b : Bus) (a : Nat) (h : a ≤ 0x3FFF) :
    Bus.mem_read b a = some (b.cartridge.cartridge_rom a) := by
  unfold Bus.mem_read Cart.read_bank0
  rw [if_pos (by omega)]

/-- C9.  When the pre-fetch check dispatches an interrupt (here VBlank, a
NOP at the 0x40 vector, a work-RAM stack, no branch cycles carried over),
the same `step` call fetches and executes the instruction at the vector:
after the check PC is 0x40 with the carried cycle counter untouched, and
the whole step hands `Bus::tick` exactly the vectored instruction's one
M-cycle — the dispatch contributes zero cycles — ending at PC 0x41 with
IME cleared. -/
theorem C9_dispatch_then_fetch_at_vector (cpu : Cpu)
    (hhalt : cpu.halted = false) (hime : cpu.ime = true)
    (hpref : cpu.prefixed_mode = false) (hcyc : cpu.cycles = 0)
    (hflag : bcontains cpu.bus.interrupt_flag Interrupt.vblank = true)
    (henab : bcontains cpu.bus.interrupt_enable Interrupt.vblank = true)
    (hsp1 : 0xC002 ≤ cpu.stack_pointer) (hsp2 : cpu.stack_pointer ≤ 0xE000)
    (hnop : cpu.bus.cartridge.cartridge_rom 0x0040 = 0x00) :
    (Cpu.interrupt_check cpu).map (fun c => (c.program_counter, c.cycles))
        = some (0x0040, cpu.cycles) ∧
    (Cpu.step cpu).map (fun p => (p.1.program_counter, p.1.ime, p.1.a, p.2))
        = some (0x0041, false, cpu.a, 1) := by
  have hf : bcontains cpu.bus.interrupt_flag (1 <<< 0) = true := by
    rw [show (1 <<< 0 : Nat) = Interrupt.vblank from rfl]; exact hflag
  have he : bcontains cpu.bus.interrupt_enable (1 <<< 0) = true := by
    rw [show (1 <<< 0 : Nat) = Interrupt.vblank from rfl]; exact henab
  have hd := interrupt_dispatch cpu 0 (by omega) hhalt hime hf he
    (fun j hj => absurd hj (by omega)) hsp1 hsp2
  constructor
  · rw [hd]; rfl
  · unfold Cpu.step
    rw [hd]
    simp only [Option.some_bind]
    rw [show ({ cpu with
        ime := false,
        stack_pointer := cpu.stack_pointer - 2,
        program_counter := 0x40 + 8 * 0,
        bus := { cpu.bus with
          interrupt_flag := cpu.bus.interrupt_flag &&& ((1 <<< 0) ^^^ 0xff),
          cpu_ram := fun i =>
            if i = (cpu.stack_pointer - 2) % 0x2000 then cpu.program_counter % 256
            else if i = (cpu.stack_pointer - 1) % 0x2000 then
              (cpu.program_counter / 256) % 256
            else cpu.bus.cpu_ram i } } : Cpu).prefixed_mode = cpu.prefixed_mode
      from rfl, hpref]
    rw [if_neg (by simp)]
    rw [mem_read_rom0 _ _ (by omega)]
    simp only [Option.some_bind]
    rw [show ({ cpu with
        ime := false,
        stack_pointer := cpu.stack_pointer - 2,
        program_counter := 0x40 + 8 * 0,
        bus := { cpu.bus with
          interrupt_flag := cpu.bus.interrupt_flag &&& ((1 <<< 0) ^^^ 0xff),
          cpu_ram := fun i =>
            if i = (cpu.stack_pointer - 2) % 0x2000 then cpu.program_counter % 256
            else if i = (cpu.stack_pointer - 1) % 0x2000 then
              (cpu.program_counter / 256) % 256
            else cpu.bus.cpu_ram i } } : Cpu).bus.cartridge.cartridge_rom 0x0040
        = cpu.bus.cartridge.cartridge_rom 0x0040 from rfl, hnop]
    rw [show hashGet CPU_OP_CODES 0x00
        = some (Opcode.mk "NOP" TargetReg.NoneReg TargetReg.NoneReg 1 1) from rfl]
    dsimp only
    rw [show (∀ c : Cpu, Cpu.non_prefixed_opcodes c 0x00
          (Opcode.mk "NOP" TargetReg.NoneReg TargetReg.NoneReg 1 1) = some c)
        from fun c => rfl]
    simp only [Option.map_some']
    rw [show cpu.cycles = 0 from hcyc]

/-- demo state for the C9 witness: VBlank requested and enabled, all-zero
ROM (NOP at the vector), stack at D000. -/
def c9DemoCpu : Cpu :=
  { Cpu.new { baseBus with interrupt_enable := 0x01, interrupt_flag := 0x01 } with
      ime := true, stack_pointer := 0xD000 }

/-- C9 witness. -/
theorem C9_dispatch_then_fetch_at_vector_witness :
    (Cpu.interrupt_check c9DemoCpu).map (fun c => (c.program_counter, c.cycles))
        = some (0x0040, c9DemoCpu.cycles) ∧
    (Cpu.step c9DemoCpu).map (fun p => (p.1.program_counter, p.1.ime, p.1.a, p.2))
        = some (0x0041, false, c9DemoCpu.a, 1) :=
  C9_dispatch_then_fetch_at_vector c9DemoCpu rfl rfl rfl rfl (by decide)
    (by decide) (by decide) (by decide) rfl

/-- no stage of Ppu::tick writes the control register. -/
theorem tick_scanline_control (p : Ppu) (r : DisplayStatus × Bool × Bool) :
    ((Ppu.tick_scanline p r).1).control = p.control := by
  unfold Ppu.tick_scanline
  dsimp only
  repeat' split
  all_goals rfl

theorem tick_mode_select_control (p : Ppu) :
    (Ppu.tick_mode_select p).control = p.control := by
  unfold Ppu.tick_mode_select
  repeat' split
  all_goals rfl

theorem tick_mode_change_control (m : Mode) (p : Ppu)
    (r : DisplayStatus × Bool × Bool) :
    ((Ppu.tick_mode_change m p r).1).control = p.control := by
  unfold Ppu.tick_mode_change
  split <;> rfl

/-- C4 as amended.  While bit 7 of LCD-control is 0 the mode field reported
by `read_status` is forced to 0 (HBlank), but the PPU clock is not halted:
`tick` never writes LCD-control (so the LCD stays off across ticks), and —
as the counterexample shows — it keeps advancing LY and can still raise
interrupts until software re-enables the LCD. -/
theorem C4_amended_reported_mode_zero_but_clock_runs (p : Ppu) (c : Nat)
    (h : bcontains p.control Control.lcd_enable = false) :
    Ppu.read_status p = p.status ∧ ((Ppu.tick p c).1).control = p.control := by
  constructor
  · unfold Ppu.read_status
    rw [h]
    simp
  · unfold Ppu.tick
    dsimp only
    rw [tick_mode_change_control, tick_mode_select_control, tick_scanline_control]

/-- C4 amended, witness at the reset PPU state. -/
theorem C4_amended_reported_mode_zero_but_clock_runs_witness :
    Ppu.read_status Ppu.new = Ppu.new.status ∧
    ((Ppu.tick Ppu.new 7).1).control = Ppu.new.control :=
  C4_amended_reported_mode_zero_but_clock_runs Ppu.new 7 (by decide)

/-- the TIMA loop never touches the divider fields. -/
theorem timer_tick_loop_divider (fuel : Nat) : ∀ t : Timer,
    ((Timer.timer_tick_loop fuel t).1).divider_counter = t.divider_counter ∧
    ((Timer.timer_tick_loop fuel t).1).divider_cycle = t.divider_cycle := by
  induction fuel with
  | zero => intro t; exact ⟨rfl, rfl⟩
  | succ n ih =>
    intro t
    unfold Timer.timer_tick_loop
    dsimp only
    split
    · split
      · exact ⟨rfl, rfl⟩
      · exact ih _
    · exact ⟨rfl, rfl⟩

/-- Timer::timer_tick never touches the divider fields. -/
theorem timer_tick_divider (t : Timer) (c : Nat) :
    ((Timer.timer_tick t c).1).divider_counter = t.divider_counter ∧
    ((Timer.timer_tick t c).1).divider_cycle = t.divider_cycle := by
  unfold Timer.timer_tick
  split
  · exact timer_tick_loop_divider _ _
  · exact timer_tick_loop_divider _ _

/-- one M-cycle of Timer::tick on a divider accumulator below 64: the
accumulator advances, and DIV increments exactly when it reaches 64. -/
theorem timer_tick_one_divider (t : Timer) (h : t.divider_cycle < 64) :
    ((Timer.tick t 1).1).divider_counter
        = (if t.divider_cycle + 1 = 64 then (t.divider_counter + 1) % 256
           else t.divider_counter) ∧
    ((Timer.tick t 1).1).divider_cycle
        = (if t.divider_cycle + 1 = 64 then 0 else t.divider_cycle + 1) := by
  unfold Timer.tick
  obtain ⟨h1, h2⟩ := timer_tick_divider (Timer.divider_tick t 1) 1
  rw [h1, h2]
  unfold Timer.divider_tick
  rw [show Timer.TIMER_CYCLES.getD 3 0 = 64 from rfl]
  dsimp only
  rw [Nat.mod_eq_of_lt (by omega)]
  rcases Nat.lt_or_ge (t.divider_cycle + 1) 64 with hc | hc
  · rw [if_neg (by omega), if_neg (by omega), if_neg (by omega)]
    exact ⟨rfl, rfl⟩
  · have he : t.divider_cycle + 1 = 64 := by omega
    rw [if_pos (by omega), if_pos he, if_pos he]
    dsimp only
    exact ⟨rfl, by omega⟩

/-- k applications of a one-M-cycle Timer::tick. -/
def divIter (k : Nat) (t : Timer) : Timer :=
  (fun t => (Timer.tick t 1).1)^[k] t

/-- no stage of Bus::tick after the timer writes the timer back. -/
theorem bus_tick_timer (b : Bus) (n : Nat) :
    ((Bus.tick b n).1).timer = (Timer.tick b.timer n).1 := by
  unfold Bus.tick
  rcases ht : Timer.tick b.timer n with ⟨tm, ti⟩
  rcases hp : Ppu.tick b.ppu n with ⟨pp, ds, li, vi⟩
  dsimp only
  cases ti <;>
    (try simp only [↓reduceIte, Bool.false_eq_true]
     try dsimp only
     try rw [hp]
     try dsimp only
     repeat' split
     all_goals rfl)

/-- C7 as amended.  DIV is an 8-bit counter driven by a cycle accumulator
that drains at 64: from a drained accumulator, 64 single-M-cycle bus ticks
increment DIV exactly once (none of the first 63 do), i.e. the period is
64 M-cycles (= 256 T-cycles), not 256 M-cycles; `Bus::tick` feeds the
timer exactly its cycle argument; any write to FF04 zeroes DIV, and a read
of FF04 returns it. -/
theorem C7_amended_div_period_64 (b : Bus) (t : Timer) (v k : Nat)
    (h0 : t.divider_cycle = 0) (hk : k ≤ 64) :
    (divIter k t).divider_counter
        = (if k = 64 then (t.divider_counter + 1) % 256 else t.divider_counter) ∧
    (divIter k t).divider_cycle = k % 64 ∧
    ((Bus.tick b k).1).timer = (Timer.tick b.timer k).1 ∧
    (Bus.mem_write b 0xFF04 v).map (fun b2 => b2.timer.divider_counter)
        = some 0 ∧
    Bus.mem_read b 0xFF04 = some b.timer.divider_counter := by
  have main : ∀ m, m ≤ 64 →
      (divIter m t).divider_counter
          = (if m = 64 then (t.divider_counter + 1) % 256 else t.divider_counter) ∧
      (divIter m t).divider_cycle = m % 64 := by
    intro m
    induction m with
    | zero => intro _; rw [if_neg (by omega)]; exact ⟨rfl, by simpa using h0⟩
    | succ n ih =>
      intro hn
      obtain ⟨ih1, ih2⟩ := ih (by omega)
      rw [if_neg (by omega)] at ih1
      have hcyc : (divIter n t).divider_cycle = n := by
        rw [ih2, Nat.mod_eq_of_lt (by omega)]
      have hstep := timer_tick_one_divider (divIter n t) (by omega)
      have e : divIter (n + 1) t = (Timer.tick (divIter n t) 1).1 :=
        Function.iterate_succ_apply' _ n t
      rw [e, hstep.1, hstep.2, hcyc, ih1]
      refine ⟨?_, ?_⟩
      · split <;> rfl
      · split <;> omega
  obtain ⟨m1, m2⟩ := main k hk
  exact ⟨m1, m2, bus_tick_timer b k, rfl, rfl⟩

/-- C7 amended, witness: 64 one-cycle ticks from the reset timer. -/
theorem C7_amended_div_period_64_witness :
    (divIter 64 Timer.new).divider_counter
        = (if 64 = 64 then (Timer.new.divider_counter + 1) % 256
           else Timer.new.divider_counter) ∧
    (divIter 64 Timer.new).divider_cycle = 64 % 64 ∧
    ((Bus.tick baseBus 64).1).timer = (Timer.tick baseBus.timer 64).1 ∧
    (Bus.mem_write baseBus 0xFF04 9).map (fun b2 => b2.timer.divider_counter)
        = some 0 ∧
    Bus.mem_read baseBus 0xFF04 = some baseBus.timer.divider_counter :=
  C7_amended_div_period_64 baseBus Timer.new 9 64 rfl (by decide)

/-- C8 counterexample.  The claim says the frame-sequencer step advances
exactly once per 2048 M-cycles of APU ticks from any APU state; from the
state with `frame_seq_cycles = 2046` a single APU tick already advances the
step (the counter fires when it reaches 2047, not 2048). -/
theorem C8_counterexample_frame_advances_after_one_tick :
    apuNear.frame = 0 ∧ (Apu.tick apuNear).frame = 1 := by
  exact ⟨rfl, rfl⟩


/-- projections of one Apu::tick: the channel ticks and the output-cycle
counter never touch `frame_seq_cycles` or `frame`, so one tick increments
the counter and fires the sequencer exactly when it reaches 2047. -/
theorem apu_tick_frame (a : Apu) :
    (Apu.tick a).frame_seq_cycles
        = (if a.frame_seq_cycles + 1 = 2047 then 0 else a.frame_seq_cycles + 1) ∧
    (Apu.tick a).frame
        = (if a.frame_seq_cycles + 1 = 2047 then ((a.frame + 1) % 256) % 8
           else a.frame) := by
  unfold Apu.tick Apu.frame_cycle
  dsimp only
  repeat' split
  all_goals exact ⟨rfl, rfl⟩

/-- k applications of Apu::tick. -/
def apuIter (k : Nat) (a : Apu) : Apu := Apu.tick^[k] a

/-- C8 as amended.  Apu::frame_cycle fires when its incremented per-tick
counter equals 2047, so from a drained counter the frame-sequencer step
(`frame`, reduced mod 8) advances exactly once per 2047 APU M-cycle ticks,
not 2048: none of the first 2046 ticks change it and the 2047th advances it
by one (mod 8) while draining the counter. -/
theorem C8_amended_frame_period_2047 (a : Apu) (k : Nat)
    (h0 : a.frame_seq_cycles = 0) (hk : k ≤ 2047) :
    (apuIter k a).frame_seq_cycles = k % 2047 ∧
    (apuIter k a).frame
        = (if k = 2047 then ((a.frame + 1) % 256) % 8 else a.frame) := by
  have main : ∀ m, m ≤ 2047 →
      (apuIter m a).frame_seq_cycles = m % 2047 ∧
      (apuIter m a).frame
          = (if m = 2047 then ((a.frame + 1) % 256) % 8 else a.frame) := by
    intro m
    induction m with
    | zero => intro _; rw [if_neg (by omega)]; exact ⟨h0, rfl⟩
    | succ n ih =>
      intro hn
      obtain ⟨ih1, ih2⟩ := ih (by omega)
      rw [if_neg (by omega)] at ih2
      have hcyc : (apuIter n a).frame_seq_cycles = n := by
        rw [ih1, Nat.mod_eq_of_lt (by omega)]
      have hstep := apu_tick_frame (apuIter n a)
      have e : apuIter (n + 1) a = Apu.tick (apuIter n a) :=
        Function.iterate_succ_apply' _ n a
      rw [e, hstep.1, hstep.2, hcyc, ih2]
      refine ⟨?_, ?_⟩
      · split <;> omega
      · rfl
  exact main k hk

/-- C8 amended, witness: 2047 ticks from the reset APU advance the step. -/
theorem C8_amended_frame_period_2047_witness :
    (apuIter 2047 Apu.new).frame_seq_cycles = 2047 % 2047 ∧
    (apuIter 2047 Apu.new).frame
        = (if 2047 = 2047 then ((Apu.new.frame + 1) % 256) % 8
           else Apu.new.frame) :=
  C8_amended_frame_period_2047 Apu.new 2047 rfl (by decide)

/-- Bus::mem_read never panics on addresses below the echo-RAM region. -/
theorem mem_read_isSome_below_E000 (b : Bus) (a : Nat) (h : a ≤ 0xDFFF) :
    (Bus.mem_read b a).isSome := by
  delta Bus.mem_read
  by_cases h1 : a ≤ 0x3FFF
  · rw [if_pos h1]
    rfl
  rw [if_neg h1]
  by_cases h2 : a ≤ 0x7FFF
  · rw [if_pos h2]
    rfl
  rw [if_neg h2]
  by_cases h3 : a ≤ 0x9FFF
  · rw [if_pos h3]
    delta Ppu.read_vram
    dsimp only
    rw [if_pos (by omega)]
    rfl
  rw [if_neg h3]
  by_cases h4 : a ≤ 0xBFFF
  · rw [if_pos h4]
    rfl
  rw [if_neg h4]
  rw [if_pos h]
  rfl

/-- the first n iterations of the DMA page loop succeed and record exactly
the bytes read from start, start+1, ..., provided the whole page stays
below the echo-RAM region. -/
theorem dmaBytes_spec (b : Bus) (start : Nat) (hs : start + 0xA0 ≤ 0xE000) :
    ∀ n, n ≤ 0xA0 → ∃ l : List Nat, Bus.dmaBytes b start n = some l ∧
      l.length = n ∧ ∀ i, i < n → some (l.getD i 0) = Bus.mem_read b (start + i) := by
  intro n
  induction n with
  | zero =>
    intro _
    exact ⟨[], rfl, rfl, fun i hi => absurd hi (by omega)⟩
  | succ m ih =>
    intro hn
    obtain ⟨l, hl, hlen, hget⟩ := ih (by omega)
    have hsome := mem_read_isSome_below_E000 b (start + m) (by omega)
    obtain ⟨v, hv⟩ := Option.isSome_iff_exists.mp hsome
    refine ⟨l ++ [v], ?_, ?_, ?_⟩
    · unfold Bus.dmaBytes
      rw [hl, Option.some_bind, hv, Option.map_some']
    · rw [List.length_append, hlen]
      rfl
    · intro i hi
      rcases Nat.lt_or_ge i m with hlt | hge
      · rw [List.getD_eq_getElem?_getD, List.getElem?_append_left (by omega),
            ← List.getD_eq_getElem?_getD]
        exact hget i hlt
      · have him : i = m := by omega
        have hgl : (l ++ [v])[i]? = some v := by
          rw [him, ← hlen]
          exact List.getElem?_concat_length l v
        rw [List.getD_eq_getElem?_getD, hgl, Option.getD_some, him]
        exact hv.symm

/-- C10.  A write of d to the OAM DMA register FF46 asserts (aborts) for
every d > 0xDF; for every d ≤ 0xDF it never aborts and replaces the whole
OAM in one step with the 160 bytes read from d * 0x100, ..., d * 0x100 + 0x9F,
leaving every other part of the bus untouched. -/
theorem C10_dma_write_copies_page_or_aborts (b : Bus) (d : Nat) :
    (d ≤ 0xDF → ∃ page, Bus.mem_write b 0xFF46 d
          = some { b with ppu := Ppu.oam_dma b.ppu page } ∧
        ∀ i, i < 0xA0 → some (page i) = Bus.mem_read b (d * 0x100 + i)) ∧
    (0xDF < d → Bus.mem_write b 0xFF46 d = none) := by
  have hred : Bus.mem_write b 0xFF46 d
      = (if d ≤ 0xDF then
          (Bus.dmaBytes b (d <<< 8) 0xA0).map fun bytes =>
            { b with ppu := Ppu.oam_dma b.ppu (fun i => bytes.getD i 0) }
        else none) := rfl
  constructor
  · intro hd
    have hsh : d <<< 8 = d * 0x100 := by
      rw [Nat.shiftLeft_eq]
    obtain ⟨l, hl, hlen, hget⟩ :=
      dmaBytes_spec b (d * 0x100) (by omega) 0xA0 (by omega)
    refine ⟨fun i => l.getD i 0, ?_, fun i hi => hget i hi⟩
    rw [hred, if_pos hd, hsh, hl]
    rfl
  · intro hd
    rw [hred, if_neg (by omega)]

/-- C10 witness: at the base bus, a DMA write of page 0xE0 aborts while a
DMA write of page 0x00 copies ROM bytes 0x0000-0x009F into OAM. -/
theorem C10_dma_write_copies_page_or_aborts_witness :
    (Bus.mem_write baseBus 0xFF46 0xE0 = none) ∧
    (∃ page, Bus.mem_write baseBus 0xFF46 0x00
          = some { baseBus with ppu := Ppu.oam_dma baseBus.ppu page } ∧
        ∀ i, i < 0xA0 → some (page i) = Bus.mem_read baseBus (0x00 * 0x100 + i)) :=
  ⟨(C10_dma_write_copies_page_or_aborts baseBus 0xE0).2 (by decide),
   (C10_dma_write_copies_page_or_aborts baseBus 0x00).1 (by decide)⟩

end GB
